import Mathlib

/-!
Shallow embedding of `yamaha-flic-integration.js`, a Flic Hub Studio script
that bridges Flic buttons and Twist controllers to the Yamaha Extended
Control (YXC) HTTP API.

Modelling conventions:
* JavaScript numbers that hold timestamps and volume levels are modelled as
  `Int`; the fractional Twist position (`values.volume`, 0..1) is modelled
  as `ℚ` (`Math.round` corresponds to the Mathlib function `round`, which is
  `⌊x + 1/2⌋`, the same half-up rounding JavaScript uses).
* The asynchronous HTTP layer is modelled by an oracle
  `oracle : Nat → HttpResp` giving the settled outcome of the n-th HTTP
  request issued during one handler invocation.  An invocation is a pure
  function from the oracle, the current clock value (`Date.now()`) and the
  mutable script state to the trace of effects it performs (HTTP requests,
  console lines, virtual-device state updates) plus the new state.
* `console.log` / `console.error` lines are modelled by the inductive
  `LogEntry`, one constructor per distinct message in the source.
* JSON bodies that the script parses are modelled by the record `Body`
  holding the fields the script reads (`volume`, `mute`, `power`,
  `playback`).
-/

/-- Speaker record of `YAMAHA_CONFIG.speakers`. -/
structure Speaker where
  id : String
  ip : String
  name : String
  zone : String
deriving Repr, DecidableEq

/-- The static speaker table `YAMAHA_CONFIG.speakers`. -/
def speakers : List Speaker :=
  [ ⟨"id1main", "RECEIVER1_IP_ADDRESS", "Name Receiver 1 Main Zone", "main"⟩,
    ⟨"id1zone2", "RECEIVER1_IP_ADDRESS", "Name Receiver 1 Zone 2", "zone2"⟩ ]

/-- Endpoint paths of one zone, `YAMAHA_CONFIG.endpoints[zone]`. -/
structure ZoneEndpoints where
  volume : String
  status : String
  power : String
  mute : String
deriving Repr, DecidableEq

/-- Lookup `YAMAHA_CONFIG.endpoints[zone]`.  The configuration object has
exactly the keys `main` and `zone2`, and the `zone` field of every configured speaker
is one of those two strings, so the lookup is total on all reachable
arguments. -/
def endpoints (zone : String) : ZoneEndpoints :=
  if zone == "zone2" then
    ⟨"/YamahaExtendedControl/v1/zone2/setVolume",
     "/YamahaExtendedControl/v1/zone2/getStatus",
     "/YamahaExtendedControl/v1/zone2/setPower",
     "/YamahaExtendedControl/v1/zone2/setMute"⟩
  else
    ⟨"/YamahaExtendedControl/v1/main/setVolume",
     "/YamahaExtendedControl/v1/main/getStatus",
     "/YamahaExtendedControl/v1/main/setPower",
     "/YamahaExtendedControl/v1/main/setMute"⟩

/-- The cooldown constant `PLAYBACK_COOLDOWN_MS`. -/
def PLAYBACK_COOLDOWN_MS : Int := 2500

/-- Query data handed to `sendYamahaRequest`; the five keys the function
reads, each already rendered to the string `encodeURIComponent` receives. -/
structure QueryData where
  volume : Option String := none
  power : Option String := none
  mute : Option String := none
  enable : Option String := none
  playback : Option String := none
deriving Repr, DecidableEq

/-- Identity of one HTTP request issued by the script: target host, endpoint
path and query data (the method is always GET and the headers are fixed). -/
structure Request where
  ip : String
  endpoint : String
  data : Option QueryData
deriving Repr, DecidableEq

/-- Parsed JSON body abstraction: the fields the script reads after
`JSON.parse` on a response body. -/
structure Body where
  volume : Int := 0
  mute : Bool := false
  power : String := ""
  playback : String := ""
deriving Repr, DecidableEq

/-- Settled outcome of one HTTP request as seen by a caller of
`sendYamahaRequest`: either the promise rejected (timeout or transport
error) with a message, or it resolved and the body parsed to `b`. -/
inductive HttpResp where
  | reject (msg : String)
  | ok (body : Body)
deriving Repr, DecidableEq

/-- Resolved value of `sendYamahaRequest` as used by the handlers: the
`success` flag it carries and the parsed body. -/
structure YResp where
  success : Bool
  body : Body
deriving Repr, DecidableEq

/-- Console line; one constructor per distinct `console.log` /
`console.error` message of the script. -/
inductive LogEntry where
  | receivedActionMessage (message : String)
  | invalidActionMessageFormat
  | unknownDevice (deviceId : String)
  | unknownAction (deviceId : String) (action : String)
  | volumeUpCooldown (remaining : Int)
  | volumeDownCooldown (remaining : Int)
  | playbackCooldown (remaining : Int)
  | volumeChangeCooldown (remaining : Int)
  | deviceNotFound (deviceId : String)
  | settingPower (name : String) (zone : String) (state : String)
  | successSetPower (name : String)
  | errorSettingPower (name : String)
  | settingMute (name : String) (zone : String) (state : String)
  | successSetMute (name : String)
  | errorSettingMute (name : String)
  | errorSettingVolume (name : String)
  | failedGetVolume (name : String)
  | errorIncreasingVolume (name : String)
  | errorDecreasingVolume (name : String)
  | muteToggled (name : String) (muted : Bool)
  | failedToggleMute (name : String)
  | failedGetMuteStatus (name : String)
  | errorTogglingMute (name : String)
  | powerToggled (name : String) (isOn : Bool)
  | failedTogglePower (name : String)
  | failedGetPowerStatus (name : String)
  | errorTogglingPower (name : String)
  | turnedOn (name : String)
  | failedTurnOn (name : String)
  | errorTurningOn (name : String)
  | turnedOff (name : String)
  | failedTurnOff (name : String)
  | errorTurningOff (name : String)
  | failedGetPlaybackStatus (name : String)
  | errorGettingPlaybackStatus (name : String)
  | playbackPaused (name : String)
  | failedPause (name : String)
  | errorPausing (name : String)
  | playbackResumed (name : String)
  | failedResume (name : String)
  | errorResuming (name : String)
  | skippedTrack (name : String)
  | failedSkip (name : String)
  | errorSkipping (name : String)
  | errorPlaybackControl (name : String)
  | errorGettingCurrentVolume (name : String)
  | failedSpeakerUpdate (deviceId : String)
deriving Repr, DecidableEq

/-- True for the log entries produced by `console.error` calls. -/
def LogEntry.isConsoleError : LogEntry → Bool
  | .deviceNotFound _ => true
  | .errorSettingPower _ => true
  | .errorSettingMute _ => true
  | .errorSettingVolume _ => true
  | .failedGetVolume _ => true
  | .errorIncreasingVolume _ => true
  | .errorDecreasingVolume _ => true
  | .failedToggleMute _ => true
  | .failedGetMuteStatus _ => true
  | .errorTogglingMute _ => true
  | .failedTogglePower _ => true
  | .failedGetPowerStatus _ => true
  | .errorTogglingPower _ => true
  | .failedTurnOn _ => true
  | .errorTurningOn _ => true
  | .failedTurnOff _ => true
  | .errorTurningOff _ => true
  | .failedGetPlaybackStatus _ => true
  | .errorGettingPlaybackStatus _ => true
  | .failedPause _ => true
  | .errorPausing _ => true
  | .failedResume _ => true
  | .errorResuming _ => true
  | .failedSkip _ => true
  | .errorSkipping _ => true
  | .errorPlaybackControl _ => true
  | .errorGettingCurrentVolume _ => true
  | .failedSpeakerUpdate _ => true
  | _ => false

/-- True exactly for the `❌ Failed to ...` lines that sit in an `else`
branch guarded by `response.success` (or `statusResponse.success`) being
false. -/
def LogEntry.isFailedBranch : LogEntry → Bool
  | .failedGetVolume _ => true
  | .failedToggleMute _ => true
  | .failedGetMuteStatus _ => true
  | .failedTogglePower _ => true
  | .failedGetPowerStatus _ => true
  | .failedTurnOn _ => true
  | .failedTurnOff _ => true
  | .failedGetPlaybackStatus _ => true
  | .failedPause _ => true
  | .failedResume _ => true
  | .failedSkip _ => true
  | _ => false

/-- One `flicApp.virtualDeviceUpdateState(dimmableType, deviceId, {volume})`
call. -/
structure VDUpdate where
  dimmableType : String
  deviceId : String
  volume : ℚ
deriving Repr, DecidableEq

/-- Effect trace of one handler invocation: HTTP requests issued (in
order), console lines, and virtual-device state updates. -/
structure Trace where
  reqs : List Request := []
  logs : List LogEntry := []
  vdUpdates : List VDUpdate := []
deriving Repr, DecidableEq

def Trace.empty : Trace := ⟨[], [], []⟩

def Trace.append (a b : Trace) : Trace :=
  ⟨a.reqs ++ b.reqs, a.logs ++ b.logs, a.vdUpdates ++ b.vdUpdates⟩

/-- The mutable scalars of the script. -/
structure IntegState where
  lastPlaybackCommandTime : Int
  currentVolume : Int
  mainZoneVolume : Int
  zone2Volume : Int
deriving Repr, DecidableEq

/-- Result of one handler invocation: its effect trace and the script state
after it.  Handlers catch every exception, so the value is total. -/
structure HandlerOut where
  trace : Trace
  state : IntegState
deriving Repr, DecidableEq

/-- Result of one `await sendYamahaRequest(...)` at handler level: the
request that was put on the wire and the settled promise.  A resolved
promise always carries `success := true` (source lines 109-117). -/
structure SendResult where
  request : Request
  result : Except String YResp
deriving Repr

/-- Handler-level model of `sendYamahaRequest(ip, endpoint, data, zone)`:
records the request identity and converts the settled outcome the oracle gives for
the `n`-th request of the invocation.  The `zone` argument of the source
function is unused in the request it builds. -/
def sendYamahaRequestH (oracle : Nat → HttpResp) (n : Nat)
    (ip endpoint : String) (data : Option QueryData) : SendResult :=
  { request := ⟨ip, endpoint, data⟩
    result :=
      match oracle n with
      | .reject msg => .error msg
      | .ok body => .ok ⟨true, body⟩ }

/-- Remaining cooldown seconds as logged:
`Math.ceil((PLAYBACK_COOLDOWN_MS - timeSince) / 1000)`. -/
def remainingCooldown (timeSince : Int) : Int :=
  ⌈((PLAYBACK_COOLDOWN_MS - timeSince : Int) : ℚ) / 1000⌉

/-!  Low-level model of `sendYamahaRequest` itself: the URL it builds, the
request options it passes to `http.makeRequest`, and the race between the
5000 ms `setTimeout` rejection and the `makeRequest` callback. -/

/-- JavaScript `a || d` for an optionally-present number (`0` is falsy). -/
def jsOrInt (x : Option Int) (d : Int) : Int :=
  match x with
  | none => d
  | some v => if v = 0 then d else v

/-- JavaScript `a || d` for an optionally-present string (the empty string is falsy). -/
def jsOrStr (x : Option String) (d : String) : String :=
  match x with
  | none => d
  | some v => if v = "" then d else v

/-- Raw `result` object handed to the `http.makeRequest` callback; the
script probes these optional fields. -/
structure RawResult where
  statusCode : Option Int := none
  status : Option Int := none
  content : Option String := none
  body : Option String := none
  data : Option String := none
  headers : Option (List (String × String)) := none
  statusMessage : Option String := none
deriving Repr, DecidableEq

/-- Options object handed to `http.makeRequest`. -/
structure RequestOptions where
  url : String
  method : String
  headers : List (String × String)
deriving Repr, DecidableEq

/-- Inner `data` field of a resolved `sendYamahaRequest` value. -/
structure RespData where
  status : Int
  body : String
  headers : List (String × String)
  statusMessage : String
deriving Repr, DecidableEq

/-- Resolved value of the promise returned by `sendYamahaRequest`. -/
structure YamahaResponse where
  success : Bool
  data : RespData
deriving Repr, DecidableEq

/-- Settled state of the promise returned by `sendYamahaRequest`. -/
inductive Settled where
  | resolved (r : YamahaResponse)
  | rejected (msg : String)
deriving Repr, DecidableEq

/-- Behaviour of the underlying `http.makeRequest` call: either its
callback never fires, or it fires `t` milliseconds after the request was
issued with the `(error, result)` pair. -/
inductive CallbackEvent where
  | never
  | fires (t : Nat) (error : Option String) (result : Option RawResult)
deriving Repr, DecidableEq

/-- URL built by `sendYamahaRequest` (source lines 72-81): base URL plus a
query string pushed from the five recognised keys of `data`, each value
passed through `encodeURIComponent` (modelled by the parameter `enc`). -/
def buildUrl (enc : String → String) (ip endpoint : String)
    (data : Option QueryData) : String :=
  let url := "http://" ++ ip ++ endpoint
  match data with
  | none => url
  | some d =>
    let params : List String := []
    let params := params ++
      (match d.volume with | some v => ["volume=" ++ enc v] | none => [])
    let params := params ++
      (match d.power with | some v => ["power=" ++ enc v] | none => [])
    let params := params ++
      (match d.mute with | some v => ["mute=" ++ enc v] | none => [])
    let params := params ++
      (match d.enable with | some v => ["enable=" ++ enc v] | none => [])
    let params := params ++
      (match d.playback with | some v => ["playback=" ++ enc v] | none => [])
    if params.length > 0 then url ++ "?" ++ String.intercalate "&" params
    else url

/-- Request options object built by `sendYamahaRequest` (source lines
86-93). -/
def yamahaRequestOptions (enc : String → String) (ip endpoint : String)
    (data : Option QueryData) : RequestOptions :=
  { url := buildUrl enc ip endpoint data
    method := "GET"
    headers := [("Content-Type", "application/x-www-form-urlencoded"),
                ("User-Agent", "Flic-Hub-Studio/1.0")] }

/-- Resolved value built from the `result` argument of the callback (source lines
105-117): `success` is set to `true` unconditionally and the status code
and body are recovered with `||`-defaulting. -/
def yamahaResolvedValue (result : Option RawResult) : YamahaResponse :=
  let responseData := result.getD {}
  let statusCode := jsOrInt responseData.statusCode (jsOrInt responseData.status 200)
  let content := jsOrStr responseData.content
    (jsOrStr responseData.body (jsOrStr responseData.data ""))
  { success := true
    data := { status := statusCode
              body := content
              headers := responseData.headers.getD []
              statusMessage := jsOrStr responseData.statusMessage "OK" } }

/-- Settled state of the `sendYamahaRequest` promise for a given callback
behaviour: a `setTimeout` armed at 5000 ms rejects with `Request timeout`
unless the callback fires strictly first; a callback that fires in time
clears the timer and rejects on `error`, otherwise resolves. -/
def sendYamahaSettle (ev : CallbackEvent) : Settled :=
  match ev with
  | .never => .rejected "Request timeout"
  | .fires t error result =>
    if t < 5000 then
      match error with
      | some e => .rejected ("HTTP request failed: " ++ e)
      | none => .resolved (yamahaResolvedValue result)
    else .rejected "Request timeout"

/-- Full low-level model of one `sendYamahaRequest(ip, endpoint, data)`
call: the options handed to `http.makeRequest` and the settled promise. -/
def sendYamahaRequestModel (enc : String → String) (ip endpoint : String)
    (data : Option QueryData) (ev : CallbackEvent) :
    RequestOptions × Settled :=
  (yamahaRequestOptions enc ip endpoint data, sendYamahaSettle ev)

/-!  Yamaha API functions (source lines 131-222 and 759-781), modelled at
handler level over the oracle.  Each returns the trace of effects it adds
and, where the source can `throw`, an `Except` result; `n` is the index of
the next HTTP request of the current invocation. -/

/-- Model of `getCurrentVolumeAndUpdate(speaker)` (source lines 759-781):
reads the zone status and mirrors the reported volume into the virtual
device; all errors are caught internally and yield `none`. -/
def getCurrentVolumeAndUpdate (oracle : Nat → HttpResp) (n : Nat)
    (speaker : Speaker) : Trace × Option Int :=
  let sr := sendYamahaRequestH oracle n speaker.ip (endpoints speaker.zone).status none
  match sr.result with
  | .error _ =>
    (⟨[sr.request], [.errorGettingCurrentVolume speaker.name], []⟩, none)
  | .ok response =>
    if response.success then
      let currentVolume := response.body.volume
      (⟨[sr.request], [], [⟨"Speaker", speaker.id, (currentVolume : ℚ) / 100⟩]⟩,
       some currentVolume)
    else
      (⟨[sr.request], [.failedGetVolume speaker.name], []⟩, none)

/-- Model of `setYamahaVolume(speakerId, volume)` (source lines 131-156).
An unknown speaker throws before the `try`; a rejected request or the
`response.success` else-branch is logged by the `catch` and rethrown; on
success the actual volume is read back via `getCurrentVolumeAndUpdate`. -/
def setYamahaVolume (oracle : Nat → HttpResp) (n : Nat)
    (speakerId : String) (volume : ℚ) : Trace × Except String YResp :=
  match speakers.find? (fun s => s.id == speakerId) with
  | none => (Trace.empty, .error ("Speaker " ++ speakerId ++ " not found"))
  | some speaker =>
    let volumeValue := round volume
    let sr := sendYamahaRequestH oracle n speaker.ip
      (endpoints speaker.zone).volume (some { volume := some (toString volumeValue) })
    match sr.result with
    | .error e =>
      (⟨[sr.request], [.errorSettingVolume speaker.name], []⟩, .error e)
    | .ok response =>
      if response.success then
        let gcv := getCurrentVolumeAndUpdate oracle (n + 1) speaker
        (⟨sr.request :: gcv.1.reqs, gcv.1.logs, gcv.1.vdUpdates⟩, .ok response)
      else
        (⟨[sr.request], [.errorSettingVolume speaker.name], []⟩,
         .error ("Failed to set volume for " ++ speaker.name))

/-- Model of `setYamahaPower(speakerId, powerOn)` (source lines 166-190). -/
def setYamahaPower (oracle : Nat → HttpResp) (n : Nat)
    (speakerId : String) (powerOn : Bool) : Trace × Except String YResp :=
  match speakers.find? (fun s => s.id == speakerId) with
  | none => (Trace.empty, .error ("Speaker " ++ speakerId ++ " not found"))
  | some speaker =>
    let powerState := if powerOn then "on" else "standby"
    let logs0 : List LogEntry := [.settingPower speaker.name speaker.zone powerState]
    let sr := sendYamahaRequestH oracle n speaker.ip
      (endpoints speaker.zone).power (some { power := some powerState })
    match sr.result with
    | .error e =>
      (⟨[sr.request], logs0 ++ [.errorSettingPower speaker.name], []⟩, .error e)
    | .ok response =>
      if response.success then
        (⟨[sr.request], logs0 ++ [.successSetPower speaker.name], []⟩, .ok response)
      else
        (⟨[sr.request], logs0 ++ [.errorSettingPower speaker.name], []⟩,
         .error ("Failed to set power for " ++ speaker.name))

/-- Model of `setYamahaMute(speakerId, muted)` (source lines 198-222). -/
def setYamahaMute (oracle : Nat → HttpResp) (n : Nat)
    (speakerId : String) (muted : Bool) : Trace × Except String YResp :=
  match speakers.find? (fun s => s.id == speakerId) with
  | none => (Trace.empty, .error ("Speaker " ++ speakerId ++ " not found"))
  | some speaker =>
    let muteState := if muted then "true" else "false"
    let logs0 : List LogEntry := [.settingMute speaker.name speaker.zone muteState]
    let sr := sendYamahaRequestH oracle n speaker.ip
      (endpoints speaker.zone).mute (some { mute := some muteState })
    match sr.result with
    | .error e =>
      (⟨[sr.request], logs0 ++ [.errorSettingMute speaker.name], []⟩, .error e)
    | .ok response =>
      if response.success then
        (⟨[sr.request], logs0 ++ [.successSetMute speaker.name], []⟩, .ok response)
      else
        (⟨[sr.request], logs0 ++ [.errorSettingMute speaker.name], []⟩,
         .error ("Failed to set mute for " ++ speaker.name))

/-!  Action handlers (source lines 345-540): one invocation each, over the
oracle, the clock (`now = Date.now()`), the script state and the device id
token.  Each catches all exceptions, so the output is a plain value. -/

/-- Model of `handleDeviceVolumeUp(deviceId)` (source lines 345-378). -/
def handleDeviceVolumeUp (oracle : Nat → HttpResp) (now : Int)
    (st : IntegState) (deviceId : String) : HandlerOut :=
  let timeSinceLastCommand := now - st.lastPlaybackCommandTime
  if timeSinceLastCommand < PLAYBACK_COOLDOWN_MS then
    ⟨⟨[], [.volumeUpCooldown (remainingCooldown timeSinceLastCommand)], []⟩, st⟩
  else
    match speakers.find? (fun s => s.id == deviceId) with
    | none => ⟨⟨[], [.deviceNotFound deviceId], []⟩, st⟩
    | some speaker =>
      let sr := sendYamahaRequestH oracle 0 speaker.ip (endpoints speaker.zone).status none
      match sr.result with
      | .error _ =>
        ⟨⟨[sr.request], [.errorIncreasingVolume speaker.name], []⟩, st⟩
      | .ok statusResponse =>
        if statusResponse.success then
          let currentVolume := statusResponse.body.volume
          let newVolume := min 100 (currentVolume + 10)
          let sv := setYamahaVolume oracle 1 deviceId (newVolume : ℚ)
          match sv.2 with
          | .ok _ =>
            ⟨⟨sr.request :: sv.1.reqs, sv.1.logs, sv.1.vdUpdates⟩, st⟩
          | .error _ =>
            ⟨⟨sr.request :: sv.1.reqs,
              sv.1.logs ++ [.errorIncreasingVolume speaker.name],
              sv.1.vdUpdates⟩, st⟩
        else
          ⟨⟨[sr.request], [.failedGetVolume speaker.name], []⟩, st⟩

/-- Model of `handleDeviceVolumeDown(deviceId)` (source lines 383-416). -/
def handleDeviceVolumeDown (oracle : Nat → HttpResp) (now : Int)
    (st : IntegState) (deviceId : String) : HandlerOut :=
  let timeSinceLastCommand := now - st.lastPlaybackCommandTime
  if timeSinceLastCommand < PLAYBACK_COOLDOWN_MS then
    ⟨⟨[], [.volumeDownCooldown (remainingCooldown timeSinceLastCommand)], []⟩, st⟩
  else
    match speakers.find? (fun s => s.id == deviceId) with
    | none => ⟨⟨[], [.deviceNotFound deviceId], []⟩, st⟩
    | some speaker =>
      let sr := sendYamahaRequestH oracle 0 speaker.ip (endpoints speaker.zone).status none
      match sr.result with
      | .error _ =>
        ⟨⟨[sr.request], [.errorDecreasingVolume speaker.name], []⟩, st⟩
      | .ok statusResponse =>
        if statusResponse.success then
          let currentVolume := statusResponse.body.volume
          let newVolume := max 0 (currentVolume - 10)
          let sv := setYamahaVolume oracle 1 deviceId (newVolume : ℚ)
          match sv.2 with
          | .ok _ =>
            ⟨⟨sr.request :: sv.1.reqs, sv.1.logs, sv.1.vdUpdates⟩, st⟩
          | .error _ =>
            ⟨⟨sr.request :: sv.1.reqs,
              sv.1.logs ++ [.errorDecreasingVolume speaker.name],
              sv.1.vdUpdates⟩, st⟩
        else
          ⟨⟨[sr.request], [.failedGetVolume speaker.name], []⟩, st⟩

/-- Model of `handleDeviceMuteToggle(deviceId)` (source lines 421-453). -/
def handleDeviceMuteToggle (oracle : Nat → HttpResp) (now : Int)
    (st : IntegState) (deviceId : String) : HandlerOut :=
  match speakers.find? (fun s => s.id == deviceId) with
  | none => ⟨⟨[], [.deviceNotFound deviceId], []⟩, st⟩
  | some speaker =>
    let sr := sendYamahaRequestH oracle 0 speaker.ip (endpoints speaker.zone).status none
    match sr.result with
    | .error _ =>
      ⟨⟨[sr.request], [.errorTogglingMute speaker.name], []⟩, st⟩
    | .ok statusResponse =>
      if statusResponse.success then
        let isCurrentlyMuted := statusResponse.body.mute
        let newMuteState := !isCurrentlyMuted
        let sr2 := sendYamahaRequestH oracle 1 speaker.ip
          (endpoints speaker.zone).mute
          (some { enable := some (toString newMuteState) })
        match sr2.result with
        | .error _ =>
          ⟨⟨[sr.request, sr2.request], [.errorTogglingMute speaker.name], []⟩, st⟩
        | .ok response =>
          if response.success then
            ⟨⟨[sr.request, sr2.request], [.muteToggled speaker.name newMuteState], []⟩, st⟩
          else
            ⟨⟨[sr.request, sr2.request], [.failedToggleMute speaker.name], []⟩, st⟩
      else
        ⟨⟨[sr.request], [.failedGetMuteStatus speaker.name], []⟩, st⟩

/-- Model of `handleDevicePowerToggle(deviceId)` (source lines 458-490). -/
def handleDevicePowerToggle (oracle : Nat → HttpResp) (now : Int)
    (st : IntegState) (deviceId : String) : HandlerOut :=
  match speakers.find? (fun s => s.id == deviceId) with
  | none => ⟨⟨[], [.deviceNotFound deviceId], []⟩, st⟩
  | some speaker =>
    let sr := sendYamahaRequestH oracle 0 speaker.ip (endpoints speaker.zone).status none
    match sr.result with
    | .error _ =>
      ⟨⟨[sr.request], [.errorTogglingPower speaker.name], []⟩, st⟩
    | .ok statusResponse =>
      if statusResponse.success then
        let isCurrentlyOn := statusResponse.body.power == "on"
        let newPowerState := if isCurrentlyOn then "standby" else "on"
        let sr2 := sendYamahaRequestH oracle 1 speaker.ip
          (endpoints speaker.zone).power (some { power := some newPowerState })
        match sr2.result with
        | .error _ =>
          ⟨⟨[sr.request, sr2.request], [.errorTogglingPower speaker.name], []⟩, st⟩
        | .ok response =>
          if response.success then
            ⟨⟨[sr.request, sr2.request],
              [.powerToggled speaker.name (newPowerState == "on")], []⟩, st⟩
          else
            ⟨⟨[sr.request, sr2.request], [.failedTogglePower speaker.name], []⟩, st⟩
      else
        ⟨⟨[sr.request], [.failedGetPowerStatus speaker.name], []⟩, st⟩

/-- Model of `handleDevicePowerOn(deviceId)` (source lines 495-515). -/
def handleDevicePowerOn (oracle : Nat → HttpResp) (now : Int)
    (st : IntegState) (deviceId : String) : HandlerOut :=
  match speakers.find? (fun s => s.id == deviceId) with
  | none => ⟨⟨[], [.deviceNotFound deviceId], []⟩, st⟩
  | some speaker =>
    let sr := sendYamahaRequestH oracle 0 speaker.ip
      (endpoints speaker.zone).power (some { power := some "on" })
    match sr.result with
    | .error _ =>
      ⟨⟨[sr.request], [.errorTurningOn speaker.name], []⟩, st⟩
    | .ok response =>
      if response.success then
        ⟨⟨[sr.request], [.turnedOn speaker.name], []⟩, st⟩
      else
        ⟨⟨[sr.request], [.failedTurnOn speaker.name], []⟩, st⟩

/-- Model of `handleDevicePowerOff(deviceId)` (source lines 520-540). -/
def handleDevicePowerOff (oracle : Nat → HttpResp) (now : Int)
    (st : IntegState) (deviceId : String) : HandlerOut :=
  match speakers.find? (fun s => s.id == deviceId) with
  | none => ⟨⟨[], [.deviceNotFound deviceId], []⟩, st⟩
  | some speaker =>
    let sr := sendYamahaRequestH oracle 0 speaker.ip
      (endpoints speaker.zone).power (some { power := some "standby" })
    match sr.result with
    | .error _ =>
      ⟨⟨[sr.request], [.errorTurningOff speaker.name], []⟩, st⟩
    | .ok response =>
      if response.success then
        ⟨⟨[sr.request], [.turnedOff speaker.name], []⟩, st⟩
      else
        ⟨⟨[sr.request], [.failedTurnOff speaker.name], []⟩, st⟩

/-!  Playback control (source lines 547-701) and the Twist handlers. -/

/-- Model of `getPlaybackStatus(speaker)` (source lines 547-574): returns
the playback state string; every failure path yields `"unknown"` (or
`"off"` when the zone is not powered on) without throwing.  The second
component is the number of HTTP requests it issued. -/
def getPlaybackStatus (oracle : Nat → HttpResp) (n : Nat)
    (speaker : Speaker) : Trace × Nat × String :=
  let sr := sendYamahaRequestH oracle n speaker.ip (endpoints speaker.zone).status none
  match sr.result with
  | .error _ =>
    (⟨[sr.request], [.errorGettingPlaybackStatus speaker.name], []⟩, 1, "unknown")
  | .ok response =>
    if response.success then
      if response.body.power != "on" then
        (⟨[sr.request], [], []⟩, 1, "off")
      else
        let sr2 := sendYamahaRequestH oracle (n + 1) speaker.ip
          "/YamahaExtendedControl/v1/netusb/getPlayInfo" none
        match sr2.result with
        | .error _ =>
          (⟨[sr.request, sr2.request],
            [.errorGettingPlaybackStatus speaker.name], []⟩, 2, "unknown")
        | .ok netusbResponse =>
          if netusbResponse.success then
            (⟨[sr.request, sr2.request], [], []⟩, 2,
             if netusbResponse.body.playback == "" then "unknown"
             else netusbResponse.body.playback)
          else
            (⟨[sr.request, sr2.request], [], []⟩, 2, "unknown")
    else
      (⟨[sr.request], [.failedGetPlaybackStatus speaker.name], []⟩, 1, "unknown")

/-- Model of `pausePlayback(speaker)` (source lines 581-595). -/
def pausePlayback (oracle : Nat → HttpResp) (n : Nat)
    (speaker : Speaker) : Trace :=
  let sr := sendYamahaRequestH oracle n speaker.ip
    "/YamahaExtendedControl/v1/netusb/setPlayback" (some { playback := some "pause" })
  match sr.result with
  | .error _ => ⟨[sr.request], [.errorPausing speaker.name], []⟩
  | .ok response =>
    if response.success then ⟨[sr.request], [.playbackPaused speaker.name], []⟩
    else ⟨[sr.request], [.failedPause speaker.name], []⟩

/-- Model of `resumePlayback(speaker)` (source lines 602-616). -/
def resumePlayback (oracle : Nat → HttpResp) (n : Nat)
    (speaker : Speaker) : Trace :=
  let sr := sendYamahaRequestH oracle n speaker.ip
    "/YamahaExtendedControl/v1/netusb/setPlayback" (some { playback := some "play" })
  match sr.result with
  | .error _ => ⟨[sr.request], [.errorResuming speaker.name], []⟩
  | .ok response =>
    if response.success then ⟨[sr.request], [.playbackResumed speaker.name], []⟩
    else ⟨[sr.request], [.failedResume speaker.name], []⟩

/-- Model of `skipToNextTrack(speaker)` (source lines 623-637). -/
def skipToNextTrack (oracle : Nat → HttpResp) (n : Nat)
    (speaker : Speaker) : Trace :=
  let sr := sendYamahaRequestH oracle n speaker.ip
    "/YamahaExtendedControl/v1/netusb/setPlayback" (some { playback := some "next" })
  match sr.result with
  | .error _ => ⟨[sr.request], [.errorSkipping speaker.name], []⟩
  | .ok response =>
    if response.success then ⟨[sr.request], [.skippedTrack speaker.name], []⟩
    else ⟨[sr.request], [.failedSkip speaker.name], []⟩

/-- One iteration of the playback-control loop of `handleSkipDeviceUpdate`
(source lines 671-691): fetch the playback status of the speaker and, depending
on the Twist direction, pause, resume or skip.  Returns the trace of this
iteration and the next free request index. -/
def playbackControlForSpeaker (oracle : Nat → HttpResp) (n : Nat)
    (volumeChange : ℚ) (speaker : Speaker) : Trace × Nat :=
  let gp := getPlaybackStatus oracle n speaker
  let playbackStatus := gp.2.2
  let n1 := n + gp.2.1
  if volumeChange < 0 then
    if playbackStatus == "play" then
      (Trace.append gp.1 (pausePlayback oracle n1 speaker), n1 + 1)
    else (gp.1, n1)
  else if volumeChange > 0 then
    if playbackStatus == "pause" then
      (Trace.append gp.1 (resumePlayback oracle n1 speaker), n1 + 1)
    else if playbackStatus == "play" then
      (Trace.append gp.1 (skipToNextTrack oracle n1 speaker), n1 + 1)
    else (gp.1, n1)
  else (gp.1, n1)

/-- Twist values object delivered with a `virtualDeviceUpdate` event;
`values.volume` may be absent. -/
structure Values where
  volume : Option ℚ
deriving Repr, DecidableEq

/-- The reset call issued at the end of `handleSkipDeviceUpdate`:
`virtualDeviceUpdateState` on the `Speaker` device `skip` with volume 0.5. -/
def skipReset : VDUpdate := ⟨"Speaker", "skip", 1/2⟩

/-- Model of `handleSkipDeviceUpdate(deviceId, values)` (source lines
644-701).  An absent `values.volume` makes `volumeChange` NaN in the
source, so `Math.abs(volumeChange) > 0.1` is false and the small-movement
path is taken. -/
def handleSkipDeviceUpdate (oracle : Nat → HttpResp) (now : Int)
    (st : IntegState) (deviceId : String) (values : Values) : HandlerOut :=
  if deviceId != "skip" then ⟨Trace.empty, st⟩
  else
    let isPlaybackCommand : Bool :=
      match values.volume with
      | some v => decide (|v - 1/2| > 1/10)
      | none => false
    if isPlaybackCommand then
      let volumeChange := (values.volume.getD (1/2)) - 1/2
      let timeSinceLastCommand := now - st.lastPlaybackCommandTime
      if timeSinceLastCommand < PLAYBACK_COOLDOWN_MS then
        ⟨⟨[], [.playbackCooldown (remainingCooldown timeSinceLastCommand)],
          [skipReset]⟩, st⟩
      else
        let looped := speakers.foldl
          (fun (acc : Trace × Nat) speaker =>
            let step := playbackControlForSpeaker oracle acc.2 volumeChange speaker
            (Trace.append acc.1 step.1, step.2))
          (Trace.empty, 0)
        ⟨Trace.append looped.1 ⟨[], [], [skipReset]⟩,
         { st with lastPlaybackCommandTime := now }⟩
    else
      ⟨⟨[], [], [skipReset]⟩, st⟩

/-- Model of `handleYamahaSpeakerUpdate(deviceId, values)` (source lines
707-729): a Twist volume update; the cooldown gates it, then the position
is scaled to a percentage and pushed through `setYamahaVolume`, and
`currentVolume` is updated only when that did not throw. -/
def handleYamahaSpeakerUpdate (oracle : Nat → HttpResp) (now : Int)
    (st : IntegState) (deviceId : String) (values : Values) : HandlerOut :=
  match values.volume with
  | none => ⟨Trace.empty, st⟩
  | some v =>
    let timeSinceLastCommand := now - st.lastPlaybackCommandTime
    if timeSinceLastCommand < PLAYBACK_COOLDOWN_MS then
      ⟨⟨[], [.volumeChangeCooldown (remainingCooldown timeSinceLastCommand)], []⟩, st⟩
    else
      let volumePercentage := round (v * 100)
      let sv := setYamahaVolume oracle 0 deviceId (volumePercentage : ℚ)
      match sv.2 with
      | .ok _ => ⟨sv.1, { st with currentVolume := volumePercentage }⟩
      | .error _ =>
        ⟨⟨sv.1.reqs, sv.1.logs ++ [.failedSpeakerUpdate deviceId],
          sv.1.vdUpdates⟩, st⟩

/-!  The `actionMessage` event handler (source lines 278-321). -/

/-- The six device actions of the dispatch switch. -/
inductive HandlerKind where
  | volumeUp
  | volumeDown
  | muteToggle
  | powerToggle
  | powerOn
  | powerOff
deriving Repr, DecidableEq

/-- What the `actionMessage` event handler decides to do with a message. -/
inductive Decision where
  | invalid
  | unknownDevice (deviceId : String)
  | call (k : HandlerKind) (deviceId : String)
  | unknownAction (deviceId : String) (action : String)
deriving Repr, DecidableEq

/-- True when the decision invokes one of the six handler functions. -/
def Decision.isCall : Decision → Bool
  | .call _ _ => true
  | _ => false

/-- Model of `message.toLowerCase()` (character-wise lowering, structural
so that it evaluates inside the kernel). -/
def lowerString (s : String) : String := ⟨s.data.map Char.toLower⟩

/-- Model of JavaScript `split(' ')` with a single-space separator: splits
on every space, keeping empty fragments (`""` yields `[""]`). -/
def splitSpaces (s : String) : List String :=
  (s.data.foldr
    (fun c acc =>
      match acc with
      | [] => [[c]]
      | cur :: rest => if c = ' ' then [] :: (cur :: rest) else (c :: cur) :: rest)
    [[]]).map String.mk

/-- Parsing and dispatch logic of the `actionMessage` handler (source lines
282-317): lower-case the message, split on single spaces, take the first
part as device id and the join of the rest as action, look the device up in
the speaker table, then switch on the action string. -/
def dispatchDecision (message : String) : Decision :=
  let parts := splitSpaces (lowerString message)
  if parts.length ≥ 2 then
    let deviceId := parts.headD ""
    let action := String.intercalate " " (parts.drop 1)
    match speakers.find? (fun s => s.id == deviceId) with
    | none => .unknownDevice deviceId
    | some _ =>
      match action with
      | "volume up" => .call .volumeUp deviceId
      | "volume down" => .call .volumeDown deviceId
      | "mute" => .call .muteToggle deviceId
      | "power" => .call .powerToggle deviceId
      | "on" => .call .powerOn deviceId
      | "off" => .call .powerOff deviceId
      | _ => .unknownAction deviceId action
  else .invalid

/-- Run the handler a dispatch decision names. -/
def runHandler (k : HandlerKind) (oracle : Nat → HttpResp) (now : Int)
    (st : IntegState) (deviceId : String) : HandlerOut :=
  match k with
  | .volumeUp => handleDeviceVolumeUp oracle now st deviceId
  | .volumeDown => handleDeviceVolumeDown oracle now st deviceId
  | .muteToggle => handleDeviceMuteToggle oracle now st deviceId
  | .powerToggle => handleDevicePowerToggle oracle now st deviceId
  | .powerOn => handleDevicePowerOn oracle now st deviceId
  | .powerOff => handleDevicePowerOff oracle now st deviceId

/-- Full model of one `actionMessage` event (source lines 278-321): the
message is logged, parsed and dispatched; the invoked handler (if any)
contributes its trace and the new state. -/
def processActionMessage (oracle : Nat → HttpResp) (now : Int)
    (st : IntegState) (message : String) : HandlerOut :=
  let received : LogEntry := .receivedActionMessage message
  match dispatchDecision message with
  | .invalid => ⟨⟨[], [received, .invalidActionMessageFormat], []⟩, st⟩
  | .unknownDevice d => ⟨⟨[], [received, .unknownDevice d], []⟩, st⟩
  | .unknownAction d a => ⟨⟨[], [received, .unknownAction d a], []⟩, st⟩
  | .call k d =>
    let out := runHandler k oracle now st d
    ⟨⟨out.trace.reqs, received :: out.trace.logs, out.trace.vdUpdates⟩, out.state⟩

/-- Description, following the spec wording, of the query string of C5:
built only from the keys volume, power, mute, enable, playback, in that
order, each value URI-encoded, joined with ampersands and prefixed with a
question mark only when at least one key is present. -/
def specQueryString (enc : String → String) (data : Option QueryData) : String :=
  match data with
  | none => ""
  | some d =>
    let ps := ([("volume", d.volume), ("power", d.power), ("mute", d.mute),
                ("enable", d.enable), ("playback", d.playback)]).filterMap
      (fun kv => kv.2.map (fun v => kv.1 ++ "=" ++ enc v))
    if ps.isEmpty then "" else "?" ++ String.intercalate "&" ps

/-!  Concrete fixtures used by the witness theorems. -/

/-- Parsed body of a healthy status response used in witnesses. -/
def okBody : Body := { volume := 50, mute := false, power := "on", playback := "play" }

/-- Oracle answering every request with a resolved healthy response. -/
def okOracle : Nat → HttpResp := fun _ => .ok okBody

/-- Oracle rejecting every request. -/
def rejectOracle : Nat → HttpResp := fun _ => .reject "socket hang up"

/-- Initial script state: `lastPlaybackCommandTime = 0`, volumes 50. -/
def st0 : IntegState := ⟨0, 50, 50, 50⟩

/-- C5: every request built by `sendYamahaRequest` is a plain HTTP GET
with query-string parameters: the method is always `GET`, and the query
string is built only from the keys volume, power, mute, enable and
playback of the data argument, in that order, each value URI-encoded,
joined with ampersands and prefixed with a question mark only when at
least one key is present; a null data argument yields a URL with no query
string. -/
theorem sendYamahaRequest_is_get_with_query_params (enc : String → String)
    (ip endpoint : String) (data : Option QueryData) :
    (yamahaRequestOptions enc ip endpoint data).method = "GET" ∧
    (yamahaRequestOptions enc ip endpoint data).url =
      "http://" ++ ip ++ endpoint ++ specQueryString enc data ∧
    (data = none →
      (yamahaRequestOptions enc ip endpoint data).url = "http://" ++ ip ++ endpoint) := by
  refine ⟨rfl, ?_, ?_⟩
  · cases data with
    | none => simp [yamahaRequestOptions, buildUrl, specQueryString]
    | some d =>
      obtain ⟨v, p, m, e, pl⟩ := d
      cases v <;> cases p <;> cases m <;> cases e <;> cases pl <;>
        simp [yamahaRequestOptions, buildUrl, specQueryString] <;>
        simp [String.append_assoc]
  · rintro rfl
    simp [yamahaRequestOptions, buildUrl]

theorem powerOn_stops (oracle : Nat → HttpResp) (now : Int) (st : IntegState)
    (d : String) (i : Nat) (e : String) (h : oracle i = .reject e) :
    (handleDevicePowerOn oracle now st d).trace.reqs.length ≤ i + 1 ∧
    ((handleDevicePowerOn oracle now st d).trace.reqs.length = i + 1 →
      ((handleDevicePowerOn oracle now st d).trace.logs.any LogEntry.isConsoleError) = true) := by
  unfold handleDevicePowerOn
  rcases hf : speakers.find? (fun s => s.id == d) with _ | speaker <;> rw [hf]
  · simp
  · rcases h0 : oracle 0 with e0 | b0
    · simp [sendYamahaRequestH, h0, LogEntry.isConsoleError]
    · rcases i with _ | i
      · rw [h0] at h; simp at h
      · simp [sendYamahaRequestH, h0]

theorem powerOff_stops (oracle : Nat → HttpResp) (now : Int) (st : IntegState)
    (d : String) (i : Nat) (e : String) (h : oracle i = .reject e) :
    (handleDevicePowerOff oracle now st d).trace.reqs.length ≤ i + 1 ∧
    ((handleDevicePowerOff oracle now st d).trace.reqs.length = i + 1 →
      ((handleDevicePowerOff oracle now st d).trace.logs.any LogEntry.isConsoleError) = true) := by
  unfold handleDevicePowerOff
  rcases hf : speakers.find? (fun s => s.id == d) with _ | speaker <;> rw [hf]
  · simp
  · rcases h0 : oracle 0 with e0 | b0
    · simp [sendYamahaRequestH, h0, LogEntry.isConsoleError]
    · rcases i with _ | i
      · rw [h0] at h; simp at h
      · simp [sendYamahaRequestH, h0]

theorem muteToggle_stops (oracle : Nat → HttpResp) (now : Int) (st : IntegState)
    (d : String) (i : Nat) (e : String) (h : oracle i = .reject e) :
    (handleDeviceMuteToggle oracle now st d).trace.reqs.length ≤ i + 1 ∧
    ((handleDeviceMuteToggle oracle now st d).trace.reqs.length = i + 1 →
      ((handleDeviceMuteToggle oracle now st d).trace.logs.any LogEntry.isConsoleError) = true) := by
  unfold handleDeviceMuteToggle
  rcases hf : speakers.find? (fun s => s.id == d) with _ | speaker <;> rw [hf]
  · simp
  · rcases h0 : oracle 0 with e0 | b0
    · simp [sendYamahaRequestH, h0, LogEntry.isConsoleError]
    · rcases h1 : oracle 1 with e1 | b1
      · rcases i with _ | i
        · rw [h0] at h; simp at h
        · simp [sendYamahaRequestH, h0, h1, LogEntry.isConsoleError]
      · rcases i with _ | _ | i
        · rw [h0] at h; simp at h
        · rw [h1] at h; simp at h
        · simp [sendYamahaRequestH, h0, h1]

theorem powerToggle_stops (oracle : Nat → HttpResp) (now : Int) (st : IntegState)
    (d : String) (i : Nat) (e : String) (h : oracle i = .reject e) :
    (handleDevicePowerToggle oracle now st d).trace.reqs.length ≤ i + 1 ∧
    ((handleDevicePowerToggle oracle now st d).trace.reqs.length = i + 1 →
      ((handleDevicePowerToggle oracle now st d).trace.logs.any LogEntry.isConsoleError) = true) := by
  unfold handleDevicePowerToggle
  rcases hf : speakers.find? (fun s => s.id == d) with _ | speaker <;> rw [hf]
  · simp
  · rcases h0 : oracle 0 with e0 | b0
    · simp [sendYamahaRequestH, h0, LogEntry.isConsoleError]
    · rcases h1 : oracle 1 with e1 | b1
      · rcases i with _ | i
        · rw [h0] at h; simp at h
        · simp [sendYamahaRequestH, h0, h1, LogEntry.isConsoleError]
      · rcases i with _ | _ | i
        · rw [h0] at h; simp at h
        · rw [h1] at h; simp at h
        · simp [sendYamahaRequestH, h0, h1]

theorem volumeUp_stops (oracle : Nat → HttpResp) (now : Int) (st : IntegState)
    (d : String) (i : Nat) (e : String) (h : oracle i = .reject e) :
    (handleDeviceVolumeUp oracle now st d).trace.reqs.length ≤ i + 1 ∧
    ((handleDeviceVolumeUp oracle now st d).trace.reqs.length = i + 1 →
      ((handleDeviceVolumeUp oracle now st d).trace.logs.any LogEntry.isConsoleError) = true) := by
  unfold handleDeviceVolumeUp
  by_cases hc : now - st.lastPlaybackCommandTime < PLAYBACK_COOLDOWN_MS
  · simp [hc]
  · rw [if_neg hc]
    rcases hf : speakers.find? (fun s => s.id == d) with _ | speaker <;> rw [hf]
    · simp
    · rcases h0 : oracle 0 with e0 | b0
      · simp [sendYamahaRequestH, h0, LogEntry.isConsoleError]
      · rcases h1 : oracle 1 with e1 | b1
        · rcases i with _ | i
          · rw [h0] at h; simp at h
          · simp [sendYamahaRequestH, setYamahaVolume, hf, h0, h1,
              LogEntry.isConsoleError]
        · rcases h2 : oracle 2 with e2 | b2
          · rcases i with _ | _ | i
            · rw [h0] at h; simp at h
            · rw [h1] at h; simp at h
            · simp [sendYamahaRequestH, setYamahaVolume, getCurrentVolumeAndUpdate,
                hf, h0, h1, h2, LogEntry.isConsoleError]
          · rcases i with _ | _ | _ | i
            · rw [h0] at h; simp at h
            · rw [h1] at h; simp at h
            · rw [h2] at h; simp at h
            · simp [sendYamahaRequestH, setYamahaVolume, getCurrentVolumeAndUpdate,
                hf, h0, h1, h2]

theorem volumeDown_stops (oracle : Nat → HttpResp) (now : Int) (st : IntegState)
    (d : String) (i : Nat) (e : String) (h : oracle i = .reject e) :
    (handleDeviceVolumeDown oracle now st d).trace.reqs.length ≤ i + 1 ∧
    ((handleDeviceVolumeDown oracle now st d).trace.reqs.length = i + 1 →
      ((handleDeviceVolumeDown oracle now st d).trace.logs.any LogEntry.isConsoleError) = true) := by
  unfold handleDeviceVolumeDown
  by_cases hc : now - st.lastPlaybackCommandTime < PLAYBACK_COOLDOWN_MS
  · simp [hc]
  · rw [if_neg hc]
    rcases hf : speakers.find? (fun s => s.id == d) with _ | speaker <;> rw [hf]
    · simp
    · rcases h0 : oracle 0 with e0 | b0
      · simp [sendYamahaRequestH, h0, LogEntry.isConsoleError]
      · rcases h1 : oracle 1 with e1 | b1
        · rcases i with _ | i
          · rw [h0] at h; simp at h
          · simp [sendYamahaRequestH, setYamahaVolume, hf, h0, h1,
              LogEntry.isConsoleError]
        · rcases h2 : oracle 2 with e2 | b2
          · rcases i with _ | _ | i
            · rw [h0] at h; simp at h
            · rw [h1] at h; simp at h
            · simp [sendYamahaRequestH, setYamahaVolume, getCurrentVolumeAndUpdate,
                hf, h0, h1, h2, LogEntry.isConsoleError]
          · rcases i with _ | _ | _ | i
            · rw [h0] at h; simp at h
            · rw [h1] at h; simp at h
            · rw [h2] at h; simp at h
            · simp [sendYamahaRequestH, setYamahaVolume, getCurrentVolumeAndUpdate,
                hf, h0, h1, h2]

theorem speakerUpdate_stops (oracle : Nat → HttpResp) (now : Int) (st : IntegState)
    (d : String) (values : Values) (i : Nat) (e : String) (h : oracle i = .reject e) :
    (handleYamahaSpeakerUpdate oracle now st d values).trace.reqs.length ≤ i + 1 ∧
    ((handleYamahaSpeakerUpdate oracle now st d values).trace.reqs.length = i + 1 →
      ((handleYamahaSpeakerUpdate oracle now st d values).trace.logs.any LogEntry.isConsoleError) = true) := by
  unfold handleYamahaSpeakerUpdate
  rcases values with ⟨_ | v⟩
  · simp [Trace.empty]
  · simp only []
    split
    · simp
    · rcases hf : speakers.find? (fun s => s.id == d) with _ | speaker
      · simp [setYamahaVolume, hf, LogEntry.isConsoleError, Trace.empty]
      · rcases h0 : oracle 0 with e0 | b0
        · simp [sendYamahaRequestH, setYamahaVolume, hf, h0, LogEntry.isConsoleError]
        · rcases h1 : oracle 1 with e1 | b1
          · rcases i with _ | i
            · rw [h0] at h; simp at h
            · simp [sendYamahaRequestH, setYamahaVolume, getCurrentVolumeAndUpdate,
                hf, h0, h1, LogEntry.isConsoleError]
          · rcases i with _ | _ | i
            · rw [h0] at h; simp at h
            · rw [h1] at h; simp at h
            · simp [sendYamahaRequestH, setYamahaVolume, getCurrentVolumeAndUpdate,
                hf, h0, h1]

theorem volumeUp_noFailed_and_state (oracle : Nat → HttpResp) (now : Int)
    (st : IntegState) (d : String) :
    ((handleDeviceVolumeUp oracle now st d).trace.logs.any LogEntry.isFailedBranch) = false ∧
    (handleDeviceVolumeUp oracle now st d).state = st := by
  unfold handleDeviceVolumeUp
  by_cases hc : now - st.lastPlaybackCommandTime < PLAYBACK_COOLDOWN_MS
  · simp [hc, LogEntry.isFailedBranch]
  · rw [if_neg hc]
    rcases hf : speakers.find? (fun s => s.id == d) with _ | speaker <;> rw [hf]
    · simp [LogEntry.isFailedBranch]
    · rcases h0 : oracle 0 with e0 | b0
      · simp [sendYamahaRequestH, h0, LogEntry.isFailedBranch]
      · rcases h1 : oracle 1 with e1 | b1
        · simp [sendYamahaRequestH, setYamahaVolume, hf, h0, h1, LogEntry.isFailedBranch]
        · rcases h2 : oracle 2 with e2 | b2 <;>
            simp [sendYamahaRequestH, setYamahaVolume, getCurrentVolumeAndUpdate,
              hf, h0, h1, h2, LogEntry.isFailedBranch]

theorem volumeDown_noFailed_and_state (oracle : Nat → HttpResp) (now : Int)
    (st : IntegState) (d : String) :
    ((handleDeviceVolumeDown oracle now st d).trace.logs.any LogEntry.isFailedBranch) = false ∧
    (handleDeviceVolumeDown oracle now st d).state = st := by
  unfold handleDeviceVolumeDown
  by_cases hc : now - st.lastPlaybackCommandTime < PLAYBACK_COOLDOWN_MS
  · simp [hc, LogEntry.isFailedBranch]
  · rw [if_neg hc]
    rcases hf : speakers.find? (fun s => s.id == d) with _ | speaker <;> rw [hf]
    · simp [LogEntry.isFailedBranch]
    · rcases h0 : oracle 0 with e0 | b0
      · simp [sendYamahaRequestH, h0, LogEntry.isFailedBranch]
      · rcases h1 : oracle 1 with e1 | b1
        · simp [sendYamahaRequestH, setYamahaVolume, hf, h0, h1, LogEntry.isFailedBranch]
        · rcases h2 : oracle 2 with e2 | b2 <;>
            simp [sendYamahaRequestH, setYamahaVolume, getCurrentVolumeAndUpdate,
              hf, h0, h1, h2, LogEntry.isFailedBranch]

theorem muteToggle_noFailed_and_state (oracle : Nat → HttpResp) (now : Int)
    (st : IntegState) (d : String) :
    ((handleDeviceMuteToggle oracle now st d).trace.logs.any LogEntry.isFailedBranch) = false ∧
    (handleDeviceMuteToggle oracle now st d).state = st := by
  unfold handleDeviceMuteToggle
  rcases hf : speakers.find? (fun s => s.id == d) with _ | speaker <;> rw [hf]
  · simp [LogEntry.isFailedBranch]
  · rcases h0 : oracle 0 with e0 | b0
    · simp [sendYamahaRequestH, h0, LogEntry.isFailedBranch]
    · rcases h1 : oracle 1 with e1 | b1 <;>
        simp [sendYamahaRequestH, h0, h1, LogEntry.isFailedBranch]

theorem powerToggle_noFailed_and_state (oracle : Nat → HttpResp) (now : Int)
    (st : IntegState) (d : String) :
    ((handleDevicePowerToggle oracle now st d).trace.logs.any LogEntry.isFailedBranch) = false ∧
    (handleDevicePowerToggle oracle now st d).state = st := by
  unfold handleDevicePowerToggle
  rcases hf : speakers.find? (fun s => s.id == d) with _ | speaker <;> rw [hf]
  · simp [LogEntry.isFailedBranch]
  · rcases h0 : oracle 0 with e0 | b0
    · simp [sendYamahaRequestH, h0, LogEntry.isFailedBranch]
    · rcases h1 : oracle 1 with e1 | b1 <;>
        simp [sendYamahaRequestH, h0, h1, LogEntry.isFailedBranch]

theorem powerOn_noFailed_and_state (oracle : Nat → HttpResp) (now : Int)
    (st : IntegState) (d : String) :
    ((handleDevicePowerOn oracle now st d).trace.logs.any LogEntry.isFailedBranch) = false ∧
    (handleDevicePowerOn oracle now st d).state = st := by
  unfold handleDevicePowerOn
  rcases hf : speakers.find? (fun s => s.id == d) with _ | speaker <;> rw [hf]
  · simp [LogEntry.isFailedBranch]
  · rcases h0 : oracle 0 with e0 | b0 <;>
      simp [sendYamahaRequestH, h0, LogEntry.isFailedBranch]

theorem powerOff_noFailed_and_state (oracle : Nat → HttpResp) (now : Int)
    (st : IntegState) (d : String) :
    ((handleDevicePowerOff oracle now st d).trace.logs.any LogEntry.isFailedBranch) = false ∧
    (handleDevicePowerOff oracle now st d).state = st := by
  unfold handleDevicePowerOff
  rcases hf : speakers.find? (fun s => s.id == d) with _ | speaker <;> rw [hf]
  · simp [LogEntry.isFailedBranch]
  · rcases h0 : oracle 0 with e0 | b0 <;>
      simp [sendYamahaRequestH, h0, LogEntry.isFailedBranch]

theorem speakerUpdate_noFailed_and_last (oracle : Nat → HttpResp) (now : Int)
    (st : IntegState) (d : String) (values : Values) :
    ((handleYamahaSpeakerUpdate oracle now st d values).trace.logs.any LogEntry.isFailedBranch) = false ∧
    (handleYamahaSpeakerUpdate oracle now st d values).state.lastPlaybackCommandTime
      = st.lastPlaybackCommandTime := by
  unfold handleYamahaSpeakerUpdate
  rcases values with ⟨_ | v⟩
  · simp [Trace.empty]
  · simp only []
    split
    · simp [LogEntry.isFailedBranch]
    · rcases hf : speakers.find? (fun s => s.id == d) with _ | speaker
      · simp [setYamahaVolume, hf, LogEntry.isFailedBranch, Trace.empty]
      · rcases h0 : oracle 0 with e0 | b0
        · simp [sendYamahaRequestH, setYamahaVolume, hf, h0, LogEntry.isFailedBranch]
        · rcases h1 : oracle 1 with e1 | b1 <;>
            simp [sendYamahaRequestH, setYamahaVolume, getCurrentVolumeAndUpdate,
              hf, h0, h1, LogEntry.isFailedBranch]

theorem pause_vd_noFailed (oracle : Nat → HttpResp) (n : Nat) (speaker : Speaker) :
    (pausePlayback oracle n speaker).vdUpdates = [] ∧
    ((pausePlayback oracle n speaker).logs.any LogEntry.isFailedBranch) = false := by
  unfold pausePlayback
  rcases h0 : oracle n with e0 | b0 <;>
    simp [sendYamahaRequestH, h0, LogEntry.isFailedBranch]

theorem resume_vd_noFailed (oracle : Nat → HttpResp) (n : Nat) (speaker : Speaker) :
    (resumePlayback oracle n speaker).vdUpdates = [] ∧
    ((resumePlayback oracle n speaker).logs.any LogEntry.isFailedBranch) = false := by
  unfold resumePlayback
  rcases h0 : oracle n with e0 | b0 <;>
    simp [sendYamahaRequestH, h0, LogEntry.isFailedBranch]

theorem skipNext_vd_noFailed (oracle : Nat → HttpResp) (n : Nat) (speaker : Speaker) :
    (skipToNextTrack oracle n speaker).vdUpdates = [] ∧
    ((skipToNextTrack oracle n speaker).logs.any LogEntry.isFailedBranch) = false := by
  unfold skipToNextTrack
  rcases h0 : oracle n with e0 | b0 <;>
    simp [sendYamahaRequestH, h0, LogEntry.isFailedBranch]

theorem getPlaybackStatus_vd_noFailed (oracle : Nat → HttpResp) (n : Nat) (speaker : Speaker) :
    (getPlaybackStatus oracle n speaker).1.vdUpdates = [] ∧
    ((getPlaybackStatus oracle n speaker).1.logs.any LogEntry.isFailedBranch) = false := by
  unfold getPlaybackStatus
  rcases h0 : oracle n with e0 | b0
  · simp [sendYamahaRequestH, h0, LogEntry.isFailedBranch]
  · simp only [sendYamahaRequestH, h0]
    by_cases hp : b0.power != "on"
    · simp [hp, LogEntry.isFailedBranch]
    · simp only [hp]
      rcases h1 : oracle (n + 1) with e1 | b1 <;>
        simp [sendYamahaRequestH, h1, LogEntry.isFailedBranch]

theorem playbackControl_vd_noFailed (oracle : Nat → HttpResp) (n : Nat)
    (vc : ℚ) (speaker : Speaker) :
    (playbackControlForSpeaker oracle n vc speaker).1.vdUpdates = [] ∧
    ((playbackControlForSpeaker oracle n vc speaker).1.logs.any LogEntry.isFailedBranch) = false := by
  unfold playbackControlForSpeaker
  (repeat' split) <;>
    simp only [Trace.append] <;>
    (repeat' split) <;>
    simp [List.any_append, getPlaybackStatus_vd_noFailed, pause_vd_noFailed,
      resume_vd_noFailed, skipNext_vd_noFailed, -List.any_eq_false]

theorem playbackControl_reject (oracle : Nat → HttpResp) (n : Nat)
    (vc : ℚ) (speaker : Speaker) (e : String) (h : oracle n = .reject e) :
    playbackControlForSpeaker oracle n vc speaker =
      (⟨[⟨speaker.ip, (endpoints speaker.zone).status, none⟩],
        [.errorGettingPlaybackStatus speaker.name], []⟩, n + 1) := by
  unfold playbackControlForSpeaker getPlaybackStatus
  simp only [sendYamahaRequestH, h]
  (repeat' split) <;> simp_all

theorem skip_reqs_empty_when_cooldown (oracle : Nat → HttpResp) (now : Int)
    (st : IntegState) (d : String) (values : Values)
    (hcool : now - st.lastPlaybackCommandTime < PLAYBACK_COOLDOWN_MS) :
    (handleSkipDeviceUpdate oracle now st d values).trace.reqs = [] := by
  unfold handleSkipDeviceUpdate
  rcases values with ⟨_ | v⟩ <;> (repeat' split) <;> simp_all [Trace.empty] <;>
    split <;> rfl

theorem skip_vd_reset (oracle : Nat → HttpResp) (now : Int)
    (st : IntegState) (values : Values) :
    (handleSkipDeviceUpdate oracle now st "skip" values).trace.vdUpdates = [skipReset] := by
  unfold handleSkipDeviceUpdate
  simp only [bne_self_eq_false, Bool.false_eq_true, if_false]
  rcases values with ⟨_ | v⟩
  · simp
  · simp only []
    split
    · split
      · simp
      · simp [Trace.append, Trace.empty, speakers, playbackControl_vd_noFailed]
    · simp

theorem skip_vd_other (oracle : Nat → HttpResp) (now : Int)
    (st : IntegState) (d : String) (values : Values) (hd : d ≠ "skip") :
    (handleSkipDeviceUpdate oracle now st d values).trace.vdUpdates = [] := by
  unfold handleSkipDeviceUpdate
  rw [if_pos (by simp [hd])]
  rfl

theorem skip_noFailed (oracle : Nat → HttpResp) (now : Int)
    (st : IntegState) (d : String) (values : Values) :
    ((handleSkipDeviceUpdate oracle now st d values).trace.logs.any LogEntry.isFailedBranch) = false := by
  unfold handleSkipDeviceUpdate
  split
  · rfl
  · rcases values with ⟨_ | v⟩
    · simp
    · simp only []
      split
      · split
        · simp [LogEntry.isFailedBranch]
        · simp only [Trace.append, speakers, List.foldl, Trace.empty]
          simp [List.any_append, playbackControl_vd_noFailed, -List.any_eq_false]
      · simp

theorem skip_state_other (oracle : Nat → HttpResp) (now : Int)
    (st : IntegState) (d : String) (values : Values) (hd : d ≠ "skip") :
    (handleSkipDeviceUpdate oracle now st d values).state = st := by
  unfold handleSkipDeviceUpdate
  rw [if_pos (by simp [hd])]

theorem skip_state_none (oracle : Nat → HttpResp) (now : Int)
    (st : IntegState) (d : String) :
    (handleSkipDeviceUpdate oracle now st d ⟨none⟩).state = st := by
  simp only [handleSkipDeviceUpdate]
  by_cases hd : (d != "skip") = true
  · rw [if_pos hd]
  · rw [if_neg hd]
    simp

theorem skip_state_small (oracle : Nat → HttpResp) (now : Int)
    (st : IntegState) (d : String) (v : ℚ) (hv : ¬(|v - (1:ℚ)/2| > 1/10)) :
    (handleSkipDeviceUpdate oracle now st d ⟨some v⟩).state = st := by
  simp only [handleSkipDeviceUpdate]
  by_cases hd : (d != "skip") = true
  · rw [if_pos hd]
  · rw [if_neg hd]
    rw [if_neg (by simpa using hv)]

theorem skip_state_cooldown (oracle : Nat → HttpResp) (now : Int)
    (st : IntegState) (d : String) (values : Values)
    (hcool : now - st.lastPlaybackCommandTime < PLAYBACK_COOLDOWN_MS) :
    (handleSkipDeviceUpdate oracle now st d values).state = st := by
  simp only [handleSkipDeviceUpdate]
  by_cases hd : (d != "skip") = true
  · rw [if_pos hd]
  · rw [if_neg hd]
    rcases values with ⟨_ | v⟩
    · simp
    · by_cases hv2 : (decide (|v - (1:ℚ)/2| > 1/10)) = true
      · rw [if_pos hv2, if_pos hcool]
      · rw [if_neg hv2]

theorem skip_state_write (oracle : Nat → HttpResp) (now : Int)
    (st : IntegState) (v : ℚ) (hv : |v - (1:ℚ)/2| > 1/10)
    (hcool : ¬(now - st.lastPlaybackCommandTime < PLAYBACK_COOLDOWN_MS)) :
    (handleSkipDeviceUpdate oracle now st "skip" ⟨some v⟩).state =
      { st with lastPlaybackCommandTime := now } := by
  simp only [handleSkipDeviceUpdate]
  rw [if_neg (by simp)]
  rw [if_pos (by simpa using hv), if_neg hcool]

theorem skip_allreject (oracle : Nat → HttpResp) (now : Int)
    (st : IntegState) (v : ℚ) (e : String) (hv : |v - (1:ℚ)/2| > 1/10)
    (hcool : ¬(now - st.lastPlaybackCommandTime < PLAYBACK_COOLDOWN_MS))
    (hrej : ∀ i, oracle i = .reject e) :
    (handleSkipDeviceUpdate oracle now st "skip" ⟨some v⟩).trace.reqs.length = 2 ∧
    ((handleSkipDeviceUpdate oracle now st "skip" ⟨some v⟩).trace.logs.any LogEntry.isConsoleError) = true := by
  simp only [handleSkipDeviceUpdate]
  rw [if_neg (by simp)]
  rw [if_pos (by simpa using hv), if_neg hcool]
  simp [playbackControlForSpeaker, getPlaybackStatus, sendYamahaRequestH, speakers,
    hrej, Trace.append, Trace.empty, LogEntry.isConsoleError]

theorem volumeUp_cooldown (oracle : Nat → HttpResp) (now : Int)
    (st : IntegState) (d : String)
    (hcool : now - st.lastPlaybackCommandTime < PLAYBACK_COOLDOWN_MS) :
    (handleDeviceVolumeUp oracle now st d).trace.reqs = [] := by
  unfold handleDeviceVolumeUp
  rw [if_pos hcool]

theorem volumeDown_cooldown (oracle : Nat → HttpResp) (now : Int)
    (st : IntegState) (d : String)
    (hcool : now - st.lastPlaybackCommandTime < PLAYBACK_COOLDOWN_MS) :
    (handleDeviceVolumeDown oracle now st d).trace.reqs = [] := by
  unfold handleDeviceVolumeDown
  rw [if_pos hcool]

theorem speakerUpdate_cooldown (oracle : Nat → HttpResp) (now : Int)
    (st : IntegState) (d : String) (values : Values)
    (hcool : now - st.lastPlaybackCommandTime < PLAYBACK_COOLDOWN_MS) :
    (handleYamahaSpeakerUpdate oracle now st d values).trace.reqs = [] := by
  unfold handleYamahaSpeakerUpdate
  rcases values with ⟨_ | v⟩
  · rfl
  · simp only []
    rw [if_pos hcool]

theorem volumeUp_len_le (oracle : Nat → HttpResp) (now : Int)
    (st : IntegState) (d : String) :
    (handleDeviceVolumeUp oracle now st d).trace.reqs.length ≤ 3 := by
  unfold handleDeviceVolumeUp
  by_cases hc : now - st.lastPlaybackCommandTime < PLAYBACK_COOLDOWN_MS
  · simp [hc]
  · rw [if_neg hc]
    rcases hf : speakers.find? (fun s => s.id == d) with _ | speaker <;> rw [hf]
    · simp
    · rcases h0 : oracle 0 with e0 | b0
      · simp [sendYamahaRequestH, h0]
      · rcases h1 : oracle 1 with e1 | b1 <;>
          rcases h2 : oracle 2 with e2 | b2 <;>
          simp [sendYamahaRequestH, setYamahaVolume, getCurrentVolumeAndUpdate,
            hf, h0, h1, h2]

theorem volumeDown_len_le (oracle : Nat → HttpResp) (now : Int)
    (st : IntegState) (d : String) :
    (handleDeviceVolumeDown oracle now st d).trace.reqs.length ≤ 3 := by
  unfold handleDeviceVolumeDown
  by_cases hc : now - st.lastPlaybackCommandTime < PLAYBACK_COOLDOWN_MS
  · simp [hc]
  · rw [if_neg hc]
    rcases hf : speakers.find? (fun s => s.id == d) with _ | speaker <;> rw [hf]
    · simp
    · rcases h0 : oracle 0 with e0 | b0
      · simp [sendYamahaRequestH, h0]
      · rcases h1 : oracle 1 with e1 | b1 <;>
          rcases h2 : oracle 2 with e2 | b2 <;>
          simp [sendYamahaRequestH, setYamahaVolume, getCurrentVolumeAndUpdate,
            hf, h0, h1, h2]

theorem muteToggle_len_le (oracle : Nat → HttpResp) (now : Int)
    (st : IntegState) (d : String) :
    (handleDeviceMuteToggle oracle now st d).trace.reqs.length ≤ 2 := by
  unfold handleDeviceMuteToggle
  rcases hf : speakers.find? (fun s => s.id == d) with _ | speaker <;> rw [hf]
  · simp
  · rcases h0 : oracle 0 with e0 | b0 <;>
      rcases h1 : oracle 1 with e1 | b1 <;>
      simp [sendYamahaRequestH, h0, h1]

theorem powerToggle_len_le (oracle : Nat → HttpResp) (now : Int)
    (st : IntegState) (d : String) :
    (handleDevicePowerToggle oracle now st d).trace.reqs.length ≤ 2 := by
  unfold handleDevicePowerToggle
  rcases hf : speakers.find? (fun s => s.id == d) with _ | speaker <;> rw [hf]
  · simp
  · rcases h0 : oracle 0 with e0 | b0 <;>
      rcases h1 : oracle 1 with e1 | b1 <;>
      simp [sendYamahaRequestH, h0, h1]

theorem powerOn_len_le (oracle : Nat → HttpResp) (now : Int)
    (st : IntegState) (d : String) :
    (handleDevicePowerOn oracle now st d).trace.reqs.length ≤ 1 := by
  unfold handleDevicePowerOn
  rcases hf : speakers.find? (fun s => s.id == d) with _ | speaker <;> rw [hf]
  · simp
  · rcases h0 : oracle 0 with e0 | b0 <;> simp [sendYamahaRequestH, h0]

theorem powerOff_len_le (oracle : Nat → HttpResp) (now : Int)
    (st : IntegState) (d : String) :
    (handleDevicePowerOff oracle now st d).trace.reqs.length ≤ 1 := by
  unfold handleDevicePowerOff
  rcases hf : speakers.find? (fun s => s.id == d) with _ | speaker <;> rw [hf]
  · simp
  · rcases h0 : oracle 0 with e0 | b0 <;> simp [sendYamahaRequestH, h0]

theorem setYamahaVolume_error_provenance (oracle : Nat → HttpResp) (n : Nat)
    (speakerId : String) (volume : ℚ) (msg : String)
    (h : (setYamahaVolume oracle n speakerId volume).2 = .error msg) :
    msg = "Speaker " ++ speakerId ++ " not found" ∨
    oracle n = .reject msg := by
  unfold setYamahaVolume at h
  rcases hf : speakers.find? (fun s => s.id == speakerId) with _ | speaker <;> rw [hf] at h
  · simp at h
    exact Or.inl h.symm
  · rcases h0 : oracle n with e0 | b0 <;>
      simp [sendYamahaRequestH, h0, getCurrentVolumeAndUpdate] at h
    exact Or.inr (by simp [h])

theorem setYamahaPower_error_provenance (oracle : Nat → HttpResp) (n : Nat)
    (speakerId : String) (powerOn : Bool) (msg : String)
    (h : (setYamahaPower oracle n speakerId powerOn).2 = .error msg) :
    msg = "Speaker " ++ speakerId ++ " not found" ∨
    oracle n = .reject msg := by
  unfold setYamahaPower at h
  rcases hf : speakers.find? (fun s => s.id == speakerId) with _ | speaker <;> rw [hf] at h
  · simp at h
    exact Or.inl h.symm
  · rcases h0 : oracle n with e0 | b0 <;>
      simp [sendYamahaRequestH, h0] at h
    exact Or.inr (by simp [h])

theorem setYamahaMute_error_provenance (oracle : Nat → HttpResp) (n : Nat)
    (speakerId : String) (muted : Bool) (msg : String)
    (h : (setYamahaMute oracle n speakerId muted).2 = .error msg) :
    msg = "Speaker " ++ speakerId ++ " not found" ∨
    oracle n = .reject msg := by
  unfold setYamahaMute at h
  rcases hf : speakers.find? (fun s => s.id == speakerId) with _ | speaker <;> rw [hf] at h
  · simp at h
    exact Or.inl h.symm
  · rcases h0 : oracle n with e0 | b0 <;>
      simp [sendYamahaRequestH, h0] at h
    exact Or.inr (by simp [h])

theorem successPath_counts (oracle : Nat → HttpResp) (b : Body) (now : Int)
    (st : IntegState) (hok : ∀ i, oracle i = .ok b)
    (hcool : ¬(now - st.lastPlaybackCommandTime < PLAYBACK_COOLDOWN_MS)) :
    (handleDeviceVolumeUp oracle now st "id1main").trace.reqs.length = 3 ∧
    (handleDeviceVolumeDown oracle now st "id1main").trace.reqs.length = 3 ∧
    (handleDeviceMuteToggle oracle now st "id1main").trace.reqs.length = 2 ∧
    (handleDevicePowerToggle oracle now st "id1main").trace.reqs.length = 2 ∧
    (handleDevicePowerOn oracle now st "id1main").trace.reqs.length = 1 ∧
    (handleDevicePowerOff oracle now st "id1main").trace.reqs.length = 1 := by
  have hf : speakers.find? (fun s => s.id == "id1main") =
      some ⟨"id1main", "RECEIVER1_IP_ADDRESS", "Name Receiver 1 Main Zone", "main"⟩ := rfl
  refine ⟨?_, ?_, ?_, ?_, ?_, ?_⟩ <;>
    simp [handleDeviceVolumeUp, handleDeviceVolumeDown, handleDeviceMuteToggle,
      handleDevicePowerToggle, handleDevicePowerOn, handleDevicePowerOff,
      sendYamahaRequestH, setYamahaVolume, getCurrentVolumeAndUpdate, hok, hf, hcool]

theorem dispatch_characterisation (message : String) (parts : List String)
    (action : String) (hp : parts = splitSpaces (lowerString message))
    (ha : action = String.intercalate " " (parts.drop 1)) :
    (parts.length < 2 → dispatchDecision message = .invalid) ∧
    (2 ≤ parts.length →
      speakers.find? (fun x => x.id == parts.headD "") = none →
      dispatchDecision message = .unknownDevice (parts.headD "")) ∧
    (2 ≤ parts.length → ∀ s,
      speakers.find? (fun x => x.id == parts.headD "") = some s →
      ((action = "volume up" →
        dispatchDecision message = .call .volumeUp (parts.headD "")) ∧
       (action = "volume down" →
        dispatchDecision message = .call .volumeDown (parts.headD "")) ∧
       (action = "mute" →
        dispatchDecision message = .call .muteToggle (parts.headD "")) ∧
       (action = "power" →
        dispatchDecision message = .call .powerToggle (parts.headD "")) ∧
       (action = "on" →
        dispatchDecision message = .call .powerOn (parts.headD "")) ∧
       (action = "off" →
        dispatchDecision message = .call .powerOff (parts.headD "")) ∧
       (action ∉ ["volume up", "volume down", "mute", "power", "on", "off"] →
        dispatchDecision message = .unknownAction (parts.headD "") action))) := by
  simp only [dispatchDecision]
  rw [← hp, ← ha]
  refine ⟨?_, ?_, ?_⟩
  · intro hlt
    rw [if_neg (by omega)]
  · intro hge hnone
    rw [if_pos hge, hnone]
  · intro hge s hs
    rw [if_pos hge, hs]
    refine ⟨?_, ?_, ?_, ?_, ?_, ?_, ?_⟩ <;> intro hact
    · rw [hact]; rfl
    · rw [hact]; rfl
    · rw [hact]; rfl
    · rw [hact]; rfl
    · rw [hact]; rfl
    · rw [hact]; rfl
    · simp only [List.mem_cons, List.not_mem_nil, or_false] at hact
      push_neg at hact
      obtain ⟨n1, n2, n3, n4, n5, n6⟩ := hact
      simp [n1, n2, n3, n4, n5, n6]

theorem process_unknown_device (oracle : Nat → HttpResp) (now : Int)
    (st : IntegState) (message : String)
    (hlen : 2 ≤ ((splitSpaces (lowerString message)).length))
    (hfind : speakers.find?
      (fun s => s.id == (splitSpaces (lowerString message)).headD "") = none) :
    (processActionMessage oracle now st message).trace.reqs = [] ∧
    (processActionMessage oracle now st message).trace.logs =
      [.receivedActionMessage message,
       .unknownDevice ((splitSpaces (lowerString message)).headD "")] ∧
    (processActionMessage oracle now st message).state = st := by
  have hd : dispatchDecision message =
      .unknownDevice ((splitSpaces (lowerString message)).headD "") :=
    (dispatch_characterisation message _ _ rfl rfl).2.1 hlen hfind
  unfold processActionMessage
  rw [hd]
  exact ⟨rfl, rfl, rfl⟩

theorem process_preserves_last (oracle : Nat → HttpResp) (now : Int)
    (st : IntegState) (message : String) :
    (processActionMessage oracle now st message).state.lastPlaybackCommandTime
      = st.lastPlaybackCommandTime := by
  unfold processActionMessage
  rcases hd : dispatchDecision message with _ | d | ⟨k, d⟩ | ⟨d, a⟩
  case invalid => rfl
  case unknownDevice => rfl
  case unknownAction => rfl
  case call =>
    rcases k <;>
      simp [runHandler, (volumeUp_noFailed_and_state oracle now st d).2,
        (volumeDown_noFailed_and_state oracle now st d).2,
        (muteToggle_noFailed_and_state oracle now st d).2,
        (powerToggle_noFailed_and_state oracle now st d).2,
        (powerOn_noFailed_and_state oracle now st d).2,
        (powerOff_noFailed_and_state oracle now st d).2]

/-- C1: a single shared cooldown timestamp with a fixed 2500 ms threshold
gates rapid repeated calls: whenever the current time minus the last
playback command timestamp is below 2500 ms, the volume-up handler, the
volume-down handler, the speaker-twist volume handler and the skip-device
handler all return without issuing any HTTP request. -/
theorem cooldown_blocks_requests_within_threshold (oracle : Nat → HttpResp)
    (now : Int) (st : IntegState) (d : String) (values : Values)
    (hcool : now - st.lastPlaybackCommandTime < 2500) :
    (handleDeviceVolumeUp oracle now st d).trace.reqs = [] ∧
    (handleDeviceVolumeDown oracle now st d).trace.reqs = [] ∧
    (handleYamahaSpeakerUpdate oracle now st d values).trace.reqs = [] ∧
    (handleSkipDeviceUpdate oracle now st d values).trace.reqs = [] :=
  ⟨volumeUp_cooldown oracle now st d hcool,
   volumeDown_cooldown oracle now st d hcool,
   speakerUpdate_cooldown oracle now st d values hcool,
   skip_reqs_empty_when_cooldown oracle now st d values hcool⟩

/-- Witness for C1 at a concrete blocked instant. -/
theorem cooldown_blocks_requests_within_threshold_witness :
    ((1000 : Int) - st0.lastPlaybackCommandTime < 2500) ∧
    (handleDeviceVolumeUp okOracle 1000 st0 "id1main").trace.reqs = [] ∧
    (handleSkipDeviceUpdate okOracle 1000 st0 "skip" ⟨some 1⟩).trace.reqs = [] :=
  ⟨by decide,
   (cooldown_blocks_requests_within_threshold okOracle 1000 st0 "id1main"
      ⟨some 1⟩ (by decide)).1,
   (cooldown_blocks_requests_within_threshold okOracle 1000 st0 "skip"
      ⟨some 1⟩ (by decide)).2.2.2⟩

/-- C7: an action message of at least two tokens whose device-id token
matches no configured speaker id makes the handler log the unknown-device
message and return: no HTTP request is issued, the logs are exactly the
received-message line plus the unknown-device line, and the mutable state
is unchanged. -/
theorem unknown_device_logged_no_request_no_state_change
    (oracle : Nat → HttpResp) (now : Int) (st : IntegState) (message : String)
    (hlen : 2 ≤ ((splitSpaces (lowerString message)).length))
    (hfind : speakers.find?
      (fun s => s.id == (splitSpaces (lowerString message)).headD "") = none) :
    (processActionMessage oracle now st message).trace.reqs = [] ∧
    (processActionMessage oracle now st message).trace.logs =
      [.receivedActionMessage message,
       .unknownDevice ((splitSpaces (lowerString message)).headD "")] ∧
    (processActionMessage oracle now st message).state = st :=
  process_unknown_device oracle now st message hlen hfind

/-- Witness for C7 at the message `xyz volume up`. -/
theorem unknown_device_logged_no_request_no_state_change_witness :
    (2 ≤ ((splitSpaces (lowerString "xyz volume up")).length)) ∧
    (speakers.find?
      (fun s => s.id == (splitSpaces (lowerString "xyz volume up")).headD "") = none) ∧
    (processActionMessage okOracle 5000 st0 "xyz volume up").trace.reqs = [] ∧
    (processActionMessage okOracle 5000 st0 "xyz volume up").state = st0 :=
  ⟨by decide, by decide,
   (unknown_device_logged_no_request_no_state_change okOracle 5000 st0
      "xyz volume up" (by decide) (by decide)).1,
   (unknown_device_logged_no_request_no_state_change okOracle 5000 st0
      "xyz volume up" (by decide) (by decide)).2.2⟩

/-- C10: the skip-device handler invoked with device id `skip` always ends
by resetting the virtual skip device to the centre position (volume 0.5)
via `virtualDeviceUpdateState` — on the cooldown-blocked path, the
playback-command path and the small-movement path alike (its only
virtual-device update is that reset) — while any other device id returns
without resetting anything. -/
theorem skip_handler_always_resets_to_center (oracle : Nat → HttpResp)
    (now : Int) (st : IntegState) (d : String) (values : Values) :
    (handleSkipDeviceUpdate oracle now st "skip" values).trace.vdUpdates =
      [⟨"Speaker", "skip", 1/2⟩] ∧
    (d ≠ "skip" →
      (handleSkipDeviceUpdate oracle now st d values).trace.vdUpdates = []) :=
  ⟨skip_vd_reset oracle now st values,
   fun hd => skip_vd_other oracle now st d values hd⟩

/-- Witness for C10: the command path and a foreign device id. -/
theorem skip_handler_always_resets_to_center_witness :
    (handleSkipDeviceUpdate okOracle 5000 st0 "skip" ⟨some 1⟩).trace.vdUpdates =
      [⟨"Speaker", "skip", 1/2⟩] ∧
    ("id1main" ≠ "skip") ∧
    (handleSkipDeviceUpdate okOracle 5000 st0 "id1main" ⟨some 1⟩).trace.vdUpdates = [] :=
  ⟨(skip_handler_always_resets_to_center okOracle 5000 st0 "id1main" ⟨some 1⟩).1,
   by decide,
   (skip_handler_always_resets_to_center okOracle 5000 st0 "id1main" ⟨some 1⟩).2
     (by decide)⟩

/-- C2 (amended): the action-message handler lower-cases the message and
splits it on spaces; with fewer than two parts it dispatches nothing
(invalid-format log), and with at least two parts it takes the first part
as the device id and the join of the rest as the action, but dispatches a
handler only when the device id matches a configured speaker: then exactly
one of the six handlers is called for the six known actions and any other
action is only logged; a non-matching device id is only logged as an
unknown device. -/
theorem actionMessage_two_token_dispatch (message : String) (parts : List String)
    (action : String) (hp : parts = splitSpaces (lowerString message))
    (ha : action = String.intercalate " " (parts.drop 1)) :
    (parts.length < 2 → dispatchDecision message = .invalid) ∧
    (2 ≤ parts.length →
      speakers.find? (fun x => x.id == parts.headD "") = none →
      dispatchDecision message = .unknownDevice (parts.headD "")) ∧
    (2 ≤ parts.length → ∀ s,
      speakers.find? (fun x => x.id == parts.headD "") = some s →
      ((action = "volume up" →
        dispatchDecision message = .call .volumeUp (parts.headD "")) ∧
       (action = "volume down" →
        dispatchDecision message = .call .volumeDown (parts.headD "")) ∧
       (action = "mute" →
        dispatchDecision message = .call .muteToggle (parts.headD "")) ∧
       (action = "power" →
        dispatchDecision message = .call .powerToggle (parts.headD "")) ∧
       (action = "on" →
        dispatchDecision message = .call .powerOn (parts.headD "")) ∧
       (action = "off" →
        dispatchDecision message = .call .powerOff (parts.headD "")) ∧
       (action ∉ ["volume up", "volume down", "mute", "power", "on", "off"] →
        dispatchDecision message = .unknownAction (parts.headD "") action))) :=
  dispatch_characterisation message parts action hp ha

/-- Counterexample to C2 as stated: `xyz volume up` has three parts and a
listed action, yet no handler is called — the lookup of the unknown device
id `xyz` short-circuits the dispatch. -/
theorem actionMessage_dispatch_counterexample :
    2 ≤ (splitSpaces (lowerString "xyz volume up")).length ∧
    String.intercalate " "
      ((splitSpaces (lowerString "xyz volume up")).drop 1) = "volume up" ∧
    dispatchDecision "xyz volume up" = .unknownDevice "xyz" ∧
    (dispatchDecision "xyz volume up").isCall = false := by
  refine ⟨by decide, by decide, by decide, by decide⟩

/-- Witness for C2 (amended) at `id1main volume up`. -/
theorem actionMessage_two_token_dispatch_witness :
    2 ≤ (splitSpaces (lowerString "id1main volume up")).length ∧
    dispatchDecision "id1main volume up" = .call .volumeUp "id1main" := by
  refine ⟨by decide, ?_⟩
  have h := (actionMessage_two_token_dispatch "id1main volume up" _ _ rfl rfl).2.2
    (by decide)
    ⟨"id1main", "RECEIVER1_IP_ADDRESS", "Name Receiver 1 Main Zone", "main"⟩
    (by decide)
  exact (h.1 (by decide)).trans (by decide)

/-- C9: the shared cooldown timestamp is written only by the skip-device
handler, and only on its playback-command path (twist moved beyond the 0.1
threshold with the cooldown inactive, where it becomes `now`); the
volume-up, volume-down and speaker-twist handlers (and the whole
action-message dispatcher) read it but never modify it, and the blocked or
small-movement skip paths leave the state untouched. -/
theorem lastPlaybackCommandTime_written_only_by_skip_handler
    (oracle : Nat → HttpResp) (now : Int) (st : IntegState) (d : String)
    (values : Values) (message : String) (v : ℚ) :
    (handleDeviceVolumeUp oracle now st d).state.lastPlaybackCommandTime
      = st.lastPlaybackCommandTime ∧
    (handleDeviceVolumeDown oracle now st d).state.lastPlaybackCommandTime
      = st.lastPlaybackCommandTime ∧
    (handleDeviceMuteToggle oracle now st d).state.lastPlaybackCommandTime
      = st.lastPlaybackCommandTime ∧
    (handleDevicePowerToggle oracle now st d).state.lastPlaybackCommandTime
      = st.lastPlaybackCommandTime ∧
    (handleDevicePowerOn oracle now st d).state.lastPlaybackCommandTime
      = st.lastPlaybackCommandTime ∧
    (handleDevicePowerOff oracle now st d).state.lastPlaybackCommandTime
      = st.lastPlaybackCommandTime ∧
    (handleYamahaSpeakerUpdate oracle now st d values).state.lastPlaybackCommandTime
      = st.lastPlaybackCommandTime ∧
    (processActionMessage oracle now st message).state.lastPlaybackCommandTime
      = st.lastPlaybackCommandTime ∧
    (d ≠ "skip" → (handleSkipDeviceUpdate oracle now st d values).state = st) ∧
    ((handleSkipDeviceUpdate oracle now st d ⟨none⟩).state = st) ∧
    (¬(|v - (1:ℚ)/2| > 1/10) →
      (handleSkipDeviceUpdate oracle now st d ⟨some v⟩).state = st) ∧
    (now - st.lastPlaybackCommandTime < 2500 →
      (handleSkipDeviceUpdate oracle now st d values).state = st) ∧
    (|v - (1:ℚ)/2| > 1/10 → ¬(now - st.lastPlaybackCommandTime < 2500) →
      (handleSkipDeviceUpdate oracle now st "skip" ⟨some v⟩).state =
        { st with lastPlaybackCommandTime := now }) :=
  ⟨by rw [(volumeUp_noFailed_and_state oracle now st d).2],
   by rw [(volumeDown_noFailed_and_state oracle now st d).2],
   by rw [(muteToggle_noFailed_and_state oracle now st d).2],
   by rw [(powerToggle_noFailed_and_state oracle now st d).2],
   by rw [(powerOn_noFailed_and_state oracle now st d).2],
   by rw [(powerOff_noFailed_and_state oracle now st d).2],
   (speakerUpdate_noFailed_and_last oracle now st d values).2,
   process_preserves_last oracle now st message,
   fun hd => skip_state_other oracle now st d values hd,
   skip_state_none oracle now st d,
   fun hv => skip_state_small oracle now st d v hv,
   fun hc => skip_state_cooldown oracle now st d values hc,
   fun hv hc => skip_state_write oracle now st v hv hc⟩

/-- The twist position 1 is beyond the 0.1 playback threshold. -/
theorem one_beyond_threshold : |(1:ℚ) - 1/2| > 1/10 := by
  rw [show (1:ℚ) - 1/2 = 1/2 by norm_num,
    abs_of_pos (by norm_num : (0:ℚ) < 1/2)]
  norm_num

/-- Witness for C9: a concrete playback command moves the timestamp to
`now` while a volume command leaves it alone. -/
theorem lastPlaybackCommandTime_written_only_by_skip_handler_witness :
    (|(1:ℚ) - 1/2| > 1/10) ∧
    (¬((5000:Int) - st0.lastPlaybackCommandTime < 2500)) ∧
    (handleDeviceVolumeUp okOracle 5000 st0 "id1main").state.lastPlaybackCommandTime
      = st0.lastPlaybackCommandTime ∧
    (handleSkipDeviceUpdate okOracle 5000 st0 "skip" ⟨some 1⟩).state =
      { st0 with lastPlaybackCommandTime := 5000 } :=
  ⟨one_beyond_threshold, by decide,
   (lastPlaybackCommandTime_written_only_by_skip_handler okOracle 5000 st0
      "id1main" ⟨some 1⟩ "m" 1).1,
   (lastPlaybackCommandTime_written_only_by_skip_handler okOracle 5000 st0
      "id1main" ⟨some 1⟩ "m" 1).2.2.2.2.2.2.2.2.2.2.2.2 one_beyond_threshold
     (by decide)⟩

/-- C3 (amended): every handler awaits its requests sequentially and
issues at most three per invocation, not two: on the success path volume
up and volume down issue three requests (get status, set volume, then the
status refresh inside `setYamahaVolume`), mute toggle and power toggle
two, power on and power off one. -/
theorem handlers_request_counts_bounded (oracle : Nat → HttpResp) (b : Body)
    (now : Int) (st : IntegState) (d : String) :
    (handleDeviceVolumeUp oracle now st d).trace.reqs.length ≤ 3 ∧
    (handleDeviceVolumeDown oracle now st d).trace.reqs.length ≤ 3 ∧
    (handleDeviceMuteToggle oracle now st d).trace.reqs.length ≤ 2 ∧
    (handleDevicePowerToggle oracle now st d).trace.reqs.length ≤ 2 ∧
    (handleDevicePowerOn oracle now st d).trace.reqs.length ≤ 1 ∧
    (handleDevicePowerOff oracle now st d).trace.reqs.length ≤ 1 ∧
    ((∀ i, oracle i = .ok b) → ¬(now - st.lastPlaybackCommandTime < 2500) →
      ((handleDeviceVolumeUp oracle now st "id1main").trace.reqs.length = 3 ∧
       (handleDeviceVolumeDown oracle now st "id1main").trace.reqs.length = 3 ∧
       (handleDeviceMuteToggle oracle now st "id1main").trace.reqs.length = 2 ∧
       (handleDevicePowerToggle oracle now st "id1main").trace.reqs.length = 2 ∧
       (handleDevicePowerOn oracle now st "id1main").trace.reqs.length = 1 ∧
       (handleDevicePowerOff oracle now st "id1main").trace.reqs.length = 1)) :=
  ⟨volumeUp_len_le oracle now st d,
   volumeDown_len_le oracle now st d,
   muteToggle_len_le oracle now st d,
   powerToggle_len_le oracle now st d,
   powerOn_len_le oracle now st d,
   powerOff_len_le oracle now st d,
   fun hok hcool => successPath_counts oracle b now st hok hcool⟩

/-- Counterexample to C3 as stated: on the all-success path the volume-up
handler issues three HTTP requests, exceeding the claimed maximum of two. -/
theorem volumeUp_success_path_three_requests :
    (handleDeviceVolumeUp okOracle 5000 st0 "id1main").trace.reqs.length = 3 ∧
    ¬((handleDeviceVolumeUp okOracle 5000 st0 "id1main").trace.reqs.length ≤ 2) := by
  have h := (successPath_counts okOracle okBody 5000 st0 (fun i => rfl) (by decide)).1
  exact ⟨h, by rw [h]; decide⟩

/-- Witness for C3 (amended) on the all-success oracle. -/
theorem handlers_request_counts_bounded_witness :
    (∀ i, okOracle i = .ok okBody) ∧
    (¬((5000 : Int) - st0.lastPlaybackCommandTime < 2500)) ∧
    (handleDevicePowerOn okOracle 5000 st0 "id1main").trace.reqs.length = 1 ∧
    (handleDeviceMuteToggle okOracle 5000 st0 "id1main").trace.reqs.length = 2 :=
  ⟨fun _ => rfl, by decide,
   ((handlers_request_counts_bounded okOracle okBody 5000 st0 "id1main").2.2.2.2.2.2
      (fun _ => rfl) (by decide)).2.2.2.2.1,
   ((handlers_request_counts_bounded okOracle okBody 5000 st0 "id1main").2.2.2.2.2.2
      (fun _ => rfl) (by decide)).2.2.1⟩

/-- C4: `sendYamahaRequest` has a fixed 5000 ms per-request timeout: when
the `http.makeRequest` callback never fires, or fires only at or after
5000 ms, the promise is rejected with `Request timeout`; a callback firing
in time with an error rejects with `HTTP request failed`; otherwise the
promise resolves. -/
theorem sendYamahaRequest_fixed_timeout (enc : String → String)
    (ip endpoint : String) (data : Option QueryData) (t : Nat)
    (err : Option String) (res : Option RawResult) :
    (sendYamahaRequestModel enc ip endpoint data .never).2 =
      .rejected "Request timeout" ∧
    (5000 ≤ t →
      (sendYamahaRequestModel enc ip endpoint data (.fires t err res)).2 =
        .rejected "Request timeout") ∧
    (∀ e, t < 5000 → err = some e →
      (sendYamahaRequestModel enc ip endpoint data (.fires t err res)).2 =
        .rejected ("HTTP request failed: " ++ e)) ∧
    (t < 5000 → err = none →
      (sendYamahaRequestModel enc ip endpoint data (.fires t err res)).2 =
        .resolved (yamahaResolvedValue res)) := by
  refine ⟨rfl, ?_, ?_, ?_⟩
  · intro ht
    simp only [sendYamahaRequestModel, sendYamahaSettle]
    rw [if_neg (by omega)]
  · intro e ht he
    subst he
    simp only [sendYamahaRequestModel, sendYamahaSettle]
    rw [if_pos ht]
  · intro ht he
    subst he
    simp only [sendYamahaRequestModel, sendYamahaSettle]
    rw [if_pos ht]

/-- Witness for C4: a late callback and an in-time transport error. -/
theorem sendYamahaRequest_fixed_timeout_witness :
    ((5000 : Nat) ≤ 6000) ∧ ((40 : Nat) < 5000) ∧
    (sendYamahaRequestModel id "ip" "/ep" none (.fires 6000 none none)).2 =
      .rejected "Request timeout" ∧
    (sendYamahaRequestModel id "ip" "/ep" none (.fires 40 (some "boom") none)).2 =
      .rejected ("HTTP request failed: " ++ "boom") :=
  ⟨by decide, by decide,
   (sendYamahaRequest_fixed_timeout id "ip" "/ep" none 6000 none none).2.1
     (by decide),
   (sendYamahaRequest_fixed_timeout id "ip" "/ep" none 40 (some "boom") none).2.2.1
     "boom" (by decide) rfl⟩

/-- Witness for C5 at a null data argument. -/
theorem sendYamahaRequest_is_get_with_query_params_witness :
    ((none : Option QueryData) = none) ∧
    (yamahaRequestOptions id "1.2.3.4" "/ep" none).method = "GET" ∧
    (yamahaRequestOptions id "1.2.3.4" "/ep" none).url = "http://" ++ "1.2.3.4" ++ "/ep" :=
  ⟨rfl,
   (sendYamahaRequest_is_get_with_query_params id "1.2.3.4" "/ep" none).1,
   (sendYamahaRequest_is_get_with_query_params id "1.2.3.4" "/ep" none).2.2 rfl⟩

/-- C6: every top-level handler catches a rejected HTTP request, logs an
error line and returns normally without retrying: for each of the six
action handlers and the speaker-twist handler, if the i-th request of an
invocation rejects then at most i+1 requests are issued in total (the
rejection ends the request stream), and whenever the stream does end at
the rejected request a `console.error` line is logged; in the skip-device
handler a playback command against an all-rejecting transport issues
exactly one status request per configured speaker (two in total), logging
the errors, with no retries. -/
theorem handler_errors_caught_logged_without_retry (oracle : Nat → HttpResp)
    (now : Int) (st : IntegState) (d : String) (values : Values) :
    (∀ i e, oracle i = .reject e →
      (handleDeviceVolumeUp oracle now st d).trace.reqs.length ≤ i + 1 ∧
      ((handleDeviceVolumeUp oracle now st d).trace.reqs.length = i + 1 →
        ((handleDeviceVolumeUp oracle now st d).trace.logs.any LogEntry.isConsoleError) = true)) ∧
    (∀ i e, oracle i = .reject e →
      (handleDeviceVolumeDown oracle now st d).trace.reqs.length ≤ i + 1 ∧
      ((handleDeviceVolumeDown oracle now st d).trace.reqs.length = i + 1 →
        ((handleDeviceVolumeDown oracle now st d).trace.logs.any LogEntry.isConsoleError) = true)) ∧
    (∀ i e, oracle i = .reject e →
      (handleDeviceMuteToggle oracle now st d).trace.reqs.length ≤ i + 1 ∧
      ((handleDeviceMuteToggle oracle now st d).trace.reqs.length = i + 1 →
        ((handleDeviceMuteToggle oracle now st d).trace.logs.any LogEntry.isConsoleError) = true)) ∧
    (∀ i e, oracle i = .reject e →
      (handleDevicePowerToggle oracle now st d).trace.reqs.length ≤ i + 1 ∧
      ((handleDevicePowerToggle oracle now st d).trace.reqs.length = i + 1 →
        ((handleDevicePowerToggle oracle now st d).trace.logs.any LogEntry.isConsoleError) = true)) ∧
    (∀ i e, oracle i = .reject e →
      (handleDevicePowerOn oracle now st d).trace.reqs.length ≤ i + 1 ∧
      ((handleDevicePowerOn oracle now st d).trace.reqs.length = i + 1 →
        ((handleDevicePowerOn oracle now st d).trace.logs.any LogEntry.isConsoleError) = true)) ∧
    (∀ i e, oracle i = .reject e →
      (handleDevicePowerOff oracle now st d).trace.reqs.length ≤ i + 1 ∧
      ((handleDevicePowerOff oracle now st d).trace.reqs.length = i + 1 →
        ((handleDevicePowerOff oracle now st d).trace.logs.any LogEntry.isConsoleError) = true)) ∧
    (∀ i e, oracle i = .reject e →
      (handleYamahaSpeakerUpdate oracle now st d values).trace.reqs.length ≤ i + 1 ∧
      ((handleYamahaSpeakerUpdate oracle now st d values).trace.reqs.length = i + 1 →
        ((handleYamahaSpeakerUpdate oracle now st d values).trace.logs.any LogEntry.isConsoleError) = true)) ∧
    (∀ v e, |v - (1:ℚ)/2| > 1/10 → ¬(now - st.lastPlaybackCommandTime < 2500) →
      (∀ i, oracle i = .reject e) →
      (handleSkipDeviceUpdate oracle now st "skip" ⟨some v⟩).trace.reqs.length = 2 ∧
      ((handleSkipDeviceUpdate oracle now st "skip" ⟨some v⟩).trace.logs.any LogEntry.isConsoleError) = true) :=
  ⟨fun i e h => volumeUp_stops oracle now st d i e h,
   fun i e h => volumeDown_stops oracle now st d i e h,
   fun i e h => muteToggle_stops oracle now st d i e h,
   fun i e h => powerToggle_stops oracle now st d i e h,
   fun i e h => powerOn_stops oracle now st d i e h,
   fun i e h => powerOff_stops oracle now st d i e h,
   fun i e h => speakerUpdate_stops oracle now st d values i e h,
   fun v e hv hc hrej => skip_allreject oracle now st v e hv hc hrej⟩

/-- Witness for C6 against an all-rejecting transport. -/
theorem handler_errors_caught_logged_without_retry_witness :
    (rejectOracle 0 = .reject "socket hang up") ∧
    ((handleDevicePowerOn rejectOracle 5000 st0 "id1main").trace.reqs.length ≤ 0 + 1 ∧
     ((handleDevicePowerOn rejectOracle 5000 st0 "id1main").trace.reqs.length = 0 + 1 →
       ((handleDevicePowerOn rejectOracle 5000 st0 "id1main").trace.logs.any LogEntry.isConsoleError) = true)) ∧
    (handleSkipDeviceUpdate rejectOracle 5000 st0 "skip" ⟨some 1⟩).trace.reqs.length = 2 :=
  ⟨rfl,
   (handler_errors_caught_logged_without_retry rejectOracle 5000 st0 "id1main"
      ⟨some 1⟩).2.2.2.2.1 0 "socket hang up" rfl,
   ((handler_errors_caught_logged_without_retry rejectOracle 5000 st0 "id1main"
      ⟨some 1⟩).2.2.2.2.2.2.2 1 "socket hang up" one_beyond_threshold
      (by decide) (fun _ => rfl)).1⟩

/-- C8: a resolved `sendYamahaRequest` promise always carries
`success = true` whatever the HTTP status code was, so every `else` branch
guarded by `response.success` is unreachable on a resolved promise: the
setter functions can only throw the speaker-not-found error or propagate a
transport rejection (never their `Failed to ...` throw), and no handler
invocation ever logs one of the `Failed to ...` success-test lines. -/
theorem resolved_success_true_failed_branches_unreachable
    (enc : String → String) (ip endpoint : String) (data : Option QueryData)
    (oracle : Nat → HttpResp) (n : Nat) (now : Int) (st : IntegState)
    (d speakerId : String) (volume : ℚ) (powerOn muted : Bool)
    (values : Values) :
    (∀ ev r, (sendYamahaRequestModel enc ip endpoint data ev).2 = .resolved r →
      r.success = true) ∧
    (∀ msg, (setYamahaVolume oracle n speakerId volume).2 = .error msg →
      msg = "Speaker " ++ speakerId ++ " not found" ∨ oracle n = .reject msg) ∧
    (∀ msg, (setYamahaPower oracle n speakerId powerOn).2 = .error msg →
      msg = "Speaker " ++ speakerId ++ " not found" ∨ oracle n = .reject msg) ∧
    (∀ msg, (setYamahaMute oracle n speakerId muted).2 = .error msg →
      msg = "Speaker " ++ speakerId ++ " not found" ∨ oracle n = .reject msg) ∧
    ((handleDeviceVolumeUp oracle now st d).trace.logs.any LogEntry.isFailedBranch) = false ∧
    ((handleDeviceVolumeDown oracle now st d).trace.logs.any LogEntry.isFailedBranch) = false ∧
    ((handleDeviceMuteToggle oracle now st d).trace.logs.any LogEntry.isFailedBranch) = false ∧
    ((handleDevicePowerToggle oracle now st d).trace.logs.any LogEntry.isFailedBranch) = false ∧
    ((handleDevicePowerOn oracle now st d).trace.logs.any LogEntry.isFailedBranch) = false ∧
    ((handleDevicePowerOff oracle now st d).trace.logs.any LogEntry.isFailedBranch) = false ∧
    ((handleYamahaSpeakerUpdate oracle now st d values).trace.logs.any LogEntry.isFailedBranch) = false ∧
    ((handleSkipDeviceUpdate oracle now st d values).trace.logs.any LogEntry.isFailedBranch) = false := by
  refine ⟨?_, fun msg h => setYamahaVolume_error_provenance oracle n speakerId volume msg h,
    fun msg h => setYamahaPower_error_provenance oracle n speakerId powerOn msg h,
    fun msg h => setYamahaMute_error_provenance oracle n speakerId muted msg h,
    (volumeUp_noFailed_and_state oracle now st d).1,
    (volumeDown_noFailed_and_state oracle now st d).1,
    (muteToggle_noFailed_and_state oracle now st d).1,
    (powerToggle_noFailed_and_state oracle now st d).1,
    (powerOn_noFailed_and_state oracle now st d).1,
    (powerOff_noFailed_and_state oracle now st d).1,
    (speakerUpdate_noFailed_and_last oracle now st d values).1,
    skip_noFailed oracle now st d values⟩
  intro ev r h
  rcases ev with _ | ⟨t, err, res⟩
  · simp [sendYamahaRequestModel, sendYamahaSettle] at h
  · simp only [sendYamahaRequestModel, sendYamahaSettle] at h
    by_cases ht : t < 5000
    · rw [if_pos ht] at h
      rcases err with _ | e
      · cases h
        rfl
      · simp at h
    · rw [if_neg ht] at h
      simp at h

/-- Witness for C8: a resolved 404 response still reports success, and a
transport rejection surfaces as the thrown error of `setYamahaVolume`. -/
theorem resolved_success_true_failed_branches_unreachable_witness :
    ((sendYamahaRequestModel id "ip" "/ep" none
        (.fires 40 none (some { statusCode := some 404 }))).2 =
      .resolved (yamahaResolvedValue (some { statusCode := some 404 }))) ∧
    (yamahaResolvedValue (some { statusCode := some 404 })).success = true ∧
    ((handleDevicePowerOn okOracle 5000 st0 "id1main").trace.logs.any LogEntry.isFailedBranch) = false :=
  ⟨rfl,
   (resolved_success_true_failed_branches_unreachable id "ip" "/ep" none
      okOracle 0 5000 st0 "id1main" "id1main" 1 true true ⟨some 1⟩).1
     (.fires 40 none (some { statusCode := some 404 }))
     (yamahaResolvedValue (some { statusCode := some 404 })) rfl,
   (resolved_success_true_failed_branches_unreachable id "ip" "/ep" none
      okOracle 0 5000 st0 "id1main" "id1main" 1 true true ⟨some 1⟩).2.2.2.2.2.2.2.2.1⟩
